import Mathlib

/-!
Verification of the TealTiger SDK client library.

This file gives a shallow embedding of the decision-enforcement pipeline of
the TealTiger SDK (src/client/TealTiger.ts), its input validation and
sanitization utilities (src/utils/validation.ts), its configuration layer
(src/config/Configuration.ts), the fluent policy builder
(src/policy/PolicyBuilder.ts) and the Azure deployment-name mapping of the
TealAzureOpenAI adapter, and proves properties of the resulting definitions.

Modelling conventions:
  * JavaScript runtime values appearing in parameter maps are modelled by the
    inductive `JValue`; maps are association lists in insertion order.
  * Asynchronous collaborators (the remote evaluation transport and the
    injected tool executor) are modelled as injected functions returning
    `Except Thrown _`, where `Thrown` models a JavaScript thrown value.
  * JavaScript number arithmetic on statistics is modelled over `Rat` for the
    running average and `Nat` for the counters.
  * `executeTool` is instrumented: besides the result and the updated
    statistics it returns the list of transport evaluation calls and the list
    of tool-executor invocations (with their arguments), so that call counts
    and call arguments are observable in theorems.
-/

namespace TealTiger

/-- A JSON-like runtime value as it can occur in a tool parameter map.
`fn` and `sym` stand for JavaScript function and symbol values, which the
validator rejects; `undef` is the JavaScript undefined value. -/
inductive JValue where
  | null
  | undef
  | bool (b : Bool)
  | num (n : Int)
  | str (s : String)
  | fn
  | sym
  | arr (items : List JValue)
  | obj (fields : List (String × JValue))

/-- SecurityContext from src/types.ts: optional request context. -/
structure SecurityContext where
  userAgent : Option String
  sessionId : Option String
  metadata : Option (List (String × JValue))

/-- ToolExecutionRequest from src/types.ts. -/
structure ToolExecutionRequest where
  agentId : String
  toolName : String
  parameters : List (String × JValue)
  context : Option SecurityContext

/-- SecurityDecision from src/types.ts.  The action is modelled as a `String`
because the runtime dispatcher in `executeTool` has a default branch for
action values outside the allow/deny/transform vocabulary. -/
structure SecurityDecision where
  requestId : String
  agentId : String
  toolName : String
  action : String
  reason : String
  riskLevel : String
  transformedRequest : Option ToolExecutionRequest
  timestamp : String

/-- SecurityEvaluationResponse from src/types.ts (the error field of a failed
response is not read by `executeTool` and is omitted). -/
structure SecurityEvaluationResponse where
  success : Bool
  decision : SecurityDecision

/-- The `details` payloads attached to errors by the code under verification.
`originalError` keeps the visible fields of a wrapped thrown value. -/
inductive ErrorDetails where
  | textDetail (s : String)
  | responseDetail (response : SecurityEvaluationResponse)
  | decisionDetail (decision : SecurityDecision)
  | riskLevelDetail (riskLevel : String)
  | originalError (code : Option String) (message : String)

/-- A JavaScript thrown value as observed by the catch blocks of
TealTiger.ts: whether it is an Error instance, whether it carries a `code`
property, its message, and an optional `details` property. -/
structure Thrown where
  isError : Bool
  code : Option String
  message : String
  details : Option ErrorDetails

/-- A TealTigerValidationError / TealTigerConfigError value:
an Error instance carrying a code and optional details. -/
def vErr (message : String) (code : String) (details : Option ErrorDetails) : Thrown :=
  { isError := true, code := some code, message := message, details := details }

/-- The error bundle of a ToolExecutionResult (src/types.ts). -/
structure ErrorInfo where
  code : String
  message : String
  details : Option ErrorDetails

/-- ToolExecutionResult from src/types.ts. -/
structure ToolExecutionResult (T : Type) where
  success : Bool
  data : Option T
  securityDecision : SecurityDecision
  error : Option ErrorInfo

/-- SDKStatistics from src/types.ts; the average response time is kept as a
rational number. -/
structure SDKStatistics where
  totalRequests : Nat
  allowedRequests : Nat
  deniedRequests : Nat
  transformedRequests : Nat
  averageResponseTime : Rat
  errorCount : Nat

/-! ## Validation utilities (src/utils/validation.ts) -/

/-- ASCII letter test, as used by the tool-name grammar of validation.ts. -/
def isAsciiLetter (c : Char) : Bool :=
  (97 ≤ c.toNat && c.toNat ≤ 122) || (65 ≤ c.toNat && c.toNat ≤ 90)

/-- A whitespace character as stripped by JavaScript trim(). -/
def isJsSpace (c : Char) : Bool :=
  c = ' ' || c = '\t' || c = '\n' || c = '\r' || c = '\x0b' || c = '\x0c'

/-- JavaScript s.trim(): strip whitespace from both ends. -/
def jsTrim (s : String) : String :=
  ⟨((s.data.dropWhile isJsSpace).reverse.dropWhile isJsSpace).reverse⟩

/-- JavaScript s.substring(0, n): the first n characters, or all of them
when the string is shorter. -/
def jsSubstringZero (s : String) (n : Nat) : String :=
  ⟨s.data.take n⟩

/-- A character allowed after the first position by the tool-name grammar
of validation.ts: letters, digits, hyphen, underscore. -/
def isToolNameChar (c : Char) : Bool :=
  isAsciiLetter c || (48 ≤ c.toNat && c.toNat ≤ 57) || c = '_' || c = '-'

/-- The regular expression of validateToolName: a letter followed by
letters, digits, hyphens and underscores. -/
def matchesToolNameGrammar : List Char → Bool
  | [] => false
  | c :: rest => isAsciiLetter c && rest.all isToolNameChar

/-- Whether a list of characters contains the character `a` twice in a row,
modelling the consecutive-hyphen and consecutive-underscore tests. -/
def hasDoubled (a : Char) : List Char → Bool
  | [] => false
  | [_] => false
  | x :: y :: rest => (x = a && y = a) || hasDoubled a (y :: rest)

/-- validateToolName from validation.ts, with each throwing branch turned
into an `Except.error` carrying the thrown validation error. -/
def validateToolNameE (toolName : String) : Except Thrown Unit :=
  if toolName = "" then
    .error (vErr "Tool name is required" "INVALID_REQUEST" none)
  else if (jsTrim toolName).length = 0 then
    .error (vErr "Tool name cannot be empty" "INVALID_REQUEST" none)
  else if ¬ matchesToolNameGrammar toolName.data then
    .error (vErr
      "Tool name can only contain letters, numbers, hyphens, and underscores, and must start with a letter"
      "INVALID_REQUEST" (some (.textDetail toolName)))
  else if hasDoubled '-' toolName.data || hasDoubled '_' toolName.data then
    .error (vErr "Tool name cannot contain consecutive hyphens or underscores"
      "INVALID_REQUEST" (some (.textDetail toolName)))
  else if toolName.length > 100 then
    .error (vErr "Tool name cannot exceed 100 characters"
      "INVALID_REQUEST" (some (.textDetail toolName)))
  else
    .ok ()

mutual

/-- checkValue from validateToolParameters: reject function and symbol
values, and recurse through nested objects and arrays, tracking the path. -/
def checkValueE : String → JValue → Except Thrown Unit
  | path, .fn =>
      .error (vErr ("Tool parameters cannot contain functions at path: " ++ path)
        "INVALID_REQUEST" (some (.textDetail path)))
  | path, .sym =>
      .error (vErr ("Tool parameters cannot contain symbols at path: " ++ path)
        "INVALID_REQUEST" (some (.textDetail path)))
  | path, .obj fields => checkFieldsE path fields
  | path, .arr items => checkItemsE path 0 items
  | _, _ => .ok ()

/-- Recursion of checkValue through the entries of a nested object. -/
def checkFieldsE : String → List (String × JValue) → Except Thrown Unit
  | _, [] => .ok ()
  | path, (key, v) :: rest => do
      checkValueE (path ++ "." ++ key) v
      checkFieldsE path rest

/-- Recursion of checkValue through the items of an array. -/
def checkItemsE : String → Nat → List JValue → Except Thrown Unit
  | _, _, [] => .ok ()
  | path, i, v :: rest => do
      checkValueE (path ++ "[" ++ toString i ++ "]") v
      checkItemsE path (i + 1) rest

end

/-- The top-level loop of validateToolParameters over the entries of the
parameter object; the path of a top-level entry is its key. -/
def checkEntriesE : List (String × JValue) → Except Thrown Unit
  | [] => .ok ()
  | (key, v) :: rest => do
      checkValueE key v
      checkEntriesE rest

/-- validateToolParameters from validation.ts: reject null, undefined,
non-objects and arrays, then check every entry recursively. -/
def validateToolParametersE : JValue → Except Thrown Unit
  | .null => .error (vErr "Tool parameters are required" "INVALID_REQUEST" none)
  | .undef => .error (vErr "Tool parameters are required" "INVALID_REQUEST" none)
  | .obj fields => checkEntriesE fields
  | _ => .error (vErr "Tool parameters must be an object" "INVALID_REQUEST" none)

/-! ## Sanitization utilities (src/utils/validation.ts) -/

/-- Character-list version of JavaScript String.prototype.startsWith. -/
def charsHaveStart : List Char → List Char → Bool
  | [], _ => true
  | _ :: _, [] => false
  | a :: as, b :: bs => a = b && charsHaveStart as bs

/-- Character-list version of JavaScript String.prototype.includes. -/
def charsContain (pat : List Char) : List Char → Bool
  | [] => pat.isEmpty
  | c :: rest => charsHaveStart pat (c :: rest) || charsContain pat rest

/-- JavaScript s.includes(pat). -/
def jsIncludes (s pat : String) : Bool :=
  charsContain pat.data s.data

/-- JavaScript s.toLowerCase(), restricted to the character-wise lowering
relevant for the ASCII keys handled here. -/
def jsToLower (s : String) : String :=
  ⟨s.data.map Char.toLower⟩

/-- The sensitive-key name list of sanitizeParameters. -/
def sensitiveKeys : List String :=
  ["password", "token", "key", "secret", "credential", "apiKey", "api_key"]

/-- The sensitive-key test of sanitizeParameters: the lowercased key
contains one of the sensitive names. -/
def isSensitiveKey (key : String) : Bool :=
  sensitiveKeys.any (fun sensitive => jsIncludes (jsToLower key) sensitive)

mutual

/-- sanitizeValue from sanitizeParameters: null and undefined become the
redaction marker, arrays and objects are rewritten recursively, everything
else is returned unchanged. -/
def sanitizeValue : JValue → JValue
  | .null => .str "[REDACTED]"
  | .undef => .str "[REDACTED]"
  | .arr items => .arr (sanitizeItems items)
  | .obj fields => .obj (sanitizeFields fields)
  | v => v

/-- Array recursion of sanitizeValue. -/
def sanitizeItems : List JValue → List JValue
  | [] => []
  | v :: rest => sanitizeValue v :: sanitizeItems rest

/-- Object recursion of sanitizeValue: entries under a sensitive key are
replaced by the redaction marker, other entries are sanitized recursively. -/
def sanitizeFields : List (String × JValue) → List (String × JValue)
  | [] => []
  | (key, v) :: rest =>
      (if isSensitiveKey key then (key, .str "[REDACTED]") else (key, sanitizeValue v))
        :: sanitizeFields rest

end

/-- sanitizeParameters from validation.ts; its top-level loop over the
parameter entries coincides with the object branch of sanitizeValue. -/
def sanitizeParameters (parameters : List (String × JValue)) : List (String × JValue) :=
  sanitizeFields parameters

/-! ## The decision-enforcement pipeline (src/client/TealTiger.ts) -/

/-- The security evaluation request built by executeTool from its inputs and
the configured agent id. -/
def mkRequest (agentId toolName : String) (parameters : List (String × JValue))
    (context : Option SecurityContext) : ToolExecutionRequest :=
  { agentId := agentId, toolName := toolName, parameters := parameters, context := context }

/-- updateStatistics from TealTiger.ts: increment the total-request counter,
increment the per-action counter, and fold the response-time sample into the
running average through the accumulated-sum form. -/
def updateStatistics (stats : SDKStatistics) (decision : SecurityDecision)
    (responseTime : Rat) : SDKStatistics :=
  let stats1 := { stats with totalRequests := stats.totalRequests + 1 }
  let stats2 :=
    if decision.action = "allow" then
      { stats1 with allowedRequests := stats1.allowedRequests + 1 }
    else if decision.action = "deny" then
      { stats1 with deniedRequests := stats1.deniedRequests + 1 }
    else if decision.action = "transform" then
      { stats1 with transformedRequests := stats1.transformedRequests + 1 }
    else stats1
  let totalTime := stats2.averageResponseTime * ((stats2.totalRequests : Rat) - 1) + responseTime
  { stats2 with averageResponseTime := totalTime / (stats2.totalRequests : Rat) }

/-- A recorded invocation of the injected tool executor: the tool name and
the parameter map it was called with. -/
structure ExecCall where
  toolName : String
  parameters : List (String × JValue)

/-- handleAllowDecision from TealTiger.ts, instrumented with the list of
executor invocations it performs. -/
def handleAllowDecision {T : Type} (toolName : String)
    (parameters : List (String × JValue)) (decision : SecurityDecision)
    (toolExecutor : Option (String → List (String × JValue) → Except Thrown T)) :
    ToolExecutionResult T × List ExecCall :=
  match toolExecutor with
  | none =>
      ({ success := true, data := none, securityDecision := decision, error := none }, [])
  | some exec =>
      match exec toolName parameters with
      | .ok d =>
          ({ success := true, data := some d, securityDecision := decision, error := none },
           [{ toolName := toolName, parameters := parameters }])
      | .error e =>
          ({ success := false, data := none, securityDecision := decision,
             error := some
               { code := "TOOL_EXECUTION_ERROR",
                 message := if e.isError then e.message else "Tool execution failed",
                 details := some (.originalError e.code e.message) } },
           [{ toolName := toolName, parameters := parameters }])

/-- handleDenyDecision from TealTiger.ts. -/
def handleDenyDecision {T : Type} (decision : SecurityDecision) : ToolExecutionResult T :=
  { success := false, data := none, securityDecision := decision,
    error := some
      { code := "SECURITY_DENIED",
        message := "Tool execution denied: " ++ decision.reason,
        details := some (.riskLevelDetail decision.riskLevel) } }

/-- handleTransformDecision from TealTiger.ts, instrumented with the list of
executor invocations it performs. -/
def handleTransformDecision {T : Type} (decision : SecurityDecision)
    (toolExecutor : Option (String → List (String × JValue) → Except Thrown T)) :
    ToolExecutionResult T × List ExecCall :=
  match decision.transformedRequest with
  | none =>
      ({ success := false, data := none, securityDecision := decision,
         error := some
           { code := "TRANSFORMATION_ERROR",
             message := "Transform decision provided but no transformed request available",
             details := none } }, [])
  | some treq =>
      match toolExecutor with
      | none =>
          ({ success := true, data := none, securityDecision := decision, error := none }, [])
      | some exec =>
          match exec treq.toolName treq.parameters with
          | .ok d =>
              ({ success := true, data := some d, securityDecision := decision, error := none },
               [{ toolName := treq.toolName, parameters := treq.parameters }])
          | .error e =>
              ({ success := false, data := none, securityDecision := decision,
                 error := some
                   { code := "TOOL_EXECUTION_ERROR",
                     message := if e.isError then e.message else "Transformed tool execution failed",
                     details := some (.originalError e.code e.message) } },
               [{ toolName := treq.toolName, parameters := treq.parameters }])

/-- The error bundle built by the outermost catch block of executeTool from
a thrown value. -/
def catchBundle (e : Thrown) : ErrorInfo :=
  { code :=
      match e.isError, e.code with
      | true, some c => c
      | _, _ => "UNKNOWN_ERROR",
    message := if e.isError then e.message else "Unknown error occurred",
    details := if e.isError then e.details else none }

/-- The structured failure result built by the outermost catch block of
executeTool: a deny-shaped placeholder decision with a synthetic request id
and critical risk level, together with the error bundle.  `errorNow` models
the Date.now() sample taken in the catch block and `nowIso` the ISO
timestamp. -/
def errorResult {T : Type} (agentId toolName : String) (errorNow : Nat)
    (nowIso : String) (e : Thrown) : ToolExecutionResult T :=
  { success := false,
    data := none,
    securityDecision :=
      { requestId := "error-" ++ toString errorNow,
        agentId := agentId,
        toolName := toolName,
        action := "deny",
        reason := "Tool execution failed due to error",
        riskLevel := "critical",
        transformedRequest := none,
        timestamp := nowIso },
    error := some (catchBundle e) }

/-- The observable outcome of one executeTool call: the result envelope, the
statistics after the call, the transport evaluation calls made, and the tool
executor invocations made. -/
structure ExecuteOutcome (T : Type) where
  result : ToolExecutionResult T
  stats : SDKStatistics
  evalCalls : List ToolExecutionRequest
  executorCalls : List ExecCall

/-- executeTool from TealTiger.ts.  The remote transport
(ssaClient.evaluateSecurity) and the tool executor are injected functions;
`responseTime` models the Date.now() - startTime sample at the statistics
update, `errorNow` and `nowIso` the time samples of the catch block. -/
def executeTool {T : Type} (agentId toolName : String)
    (parameters : List (String × JValue)) (context : Option SecurityContext)
    (evaluateSecurity : ToolExecutionRequest → Except Thrown SecurityEvaluationResponse)
    (toolExecutor : Option (String → List (String × JValue) → Except Thrown T))
    (stats : SDKStatistics) (responseTime : Rat) (errorNow : Nat) (nowIso : String) :
    ExecuteOutcome T :=
  match validateToolNameE toolName with
  | .error e =>
      { result := errorResult agentId toolName errorNow nowIso e,
        stats := { stats with errorCount := stats.errorCount + 1 },
        evalCalls := [], executorCalls := [] }
  | .ok _ =>
  match validateToolParametersE (.obj parameters) with
  | .error e =>
      { result := errorResult agentId toolName errorNow nowIso e,
        stats := { stats with errorCount := stats.errorCount + 1 },
        evalCalls := [], executorCalls := [] }
  | .ok _ =>
  let request := mkRequest agentId toolName parameters context
  match evaluateSecurity request with
  | .error e =>
      { result := errorResult agentId toolName errorNow nowIso e,
        stats := { stats with errorCount := stats.errorCount + 1 },
        evalCalls := [request], executorCalls := [] }
  | .ok response =>
  if response.success = false then
    { result := errorResult agentId toolName errorNow nowIso
        (vErr "Security evaluation failed" "VALIDATION_ERROR"
          (some (.responseDetail response))),
      stats := { stats with errorCount := stats.errorCount + 1 },
      evalCalls := [request], executorCalls := [] }
  else
    let decision := response.decision
    let stats1 := updateStatistics stats decision responseTime
    if decision.action = "allow" then
      let handled := handleAllowDecision toolName parameters decision toolExecutor
      { result := handled.1, stats := stats1,
        evalCalls := [request], executorCalls := handled.2 }
    else if decision.action = "deny" then
      { result := handleDenyDecision decision, stats := stats1,
        evalCalls := [request], executorCalls := [] }
    else if decision.action = "transform" then
      let handled := handleTransformDecision decision toolExecutor
      { result := handled.1, stats := stats1,
        evalCalls := [request], executorCalls := handled.2 }
    else
      { result := errorResult agentId toolName errorNow nowIso
          (vErr ("Unknown security action: " ++ decision.action) "POLICY_ERROR"
            (some (.decisionDetail decision))),
        stats := { stats1 with errorCount := stats1.errorCount + 1 },
        evalCalls := [request], executorCalls := [] }

/-- The thrown value that reaches the outermost catch block of executeTool,
when one does: the first stage among tool-name validation, parameter
validation, the transport call, the response-success check and the
decision-action dispatch that throws.  Executor exceptions are caught inside
the decision handlers and never reach the outer catch. -/
def thrownOf (agentId toolName : String) (parameters : List (String × JValue))
    (context : Option SecurityContext)
    (evaluateSecurity : ToolExecutionRequest → Except Thrown SecurityEvaluationResponse) :
    Option Thrown :=
  match validateToolNameE toolName with
  | .error e => some e
  | .ok _ =>
  match validateToolParametersE (.obj parameters) with
  | .error e => some e
  | .ok _ =>
  match evaluateSecurity (mkRequest agentId toolName parameters context) with
  | .error e => some e
  | .ok response =>
  if response.success = false then
    some (vErr "Security evaluation failed" "VALIDATION_ERROR"
      (some (.responseDetail response)))
  else if response.decision.action = "allow" then none
  else if response.decision.action = "deny" then none
  else if response.decision.action = "transform" then none
  else
    some (vErr ("Unknown security action: " ++ response.decision.action) "POLICY_ERROR"
      (some (.decisionDetail response.decision)))

/-- One executeTool invocation of a sequential workload: everything a call
needs besides the configured agent id and the threaded statistics. -/
structure CallInput (T : Type) where
  toolName : String
  parameters : List (String × JValue)
  context : Option SecurityContext
  evaluateSecurity : ToolExecutionRequest → Except Thrown SecurityEvaluationResponse
  toolExecutor : Option (String → List (String × JValue) → Except Thrown T)
  responseTime : Rat
  errorNow : Nat
  nowIso : String

/-- Run a sequence of executeTool calls on one client instance, threading
the statistics through them as the single owning instance does. -/
def runSequence {T : Type} (agentId : String) :
    SDKStatistics → List (CallInput T) → SDKStatistics
  | stats, [] => stats
  | stats, c :: rest =>
      runSequence agentId
        (executeTool agentId c.toolName c.parameters c.context c.evaluateSecurity
          c.toolExecutor stats c.responseTime c.errorNow c.nowIso).stats rest

/-! ## Configuration (src/config/Configuration.ts and validation.ts) -/

/-- TealTigerConfig from src/types.ts.  apiKey and ssaUrl are required,
everything else optional. -/
structure TealTigerConfig where
  apiKey : String
  ssaUrl : String
  agentId : Option String
  timeout : Option Rat
  retries : Option Rat
  debug : Option Bool
  headers : Option (List (String × String))

/-- Partial TealTigerConfig, the shape of the safe configuration views. -/
structure PartialTealTigerConfig where
  apiKey : Option String
  ssaUrl : Option String
  agentId : Option String
  timeout : Option Rat
  retries : Option Rat
  debug : Option Bool
  headers : Option (List (String × String))

/-- The characters allowed in a URL scheme after its first letter. -/
def isSchemeChar (c : Char) : Bool :=
  isAsciiLetter c || (48 ≤ c.toNat && c.toNat ≤ 57) || c = '+' || c = '-' || c = '.'

/-- The characters of a string before its first colon, when a colon exists. -/
def beforeColon : List Char → Option (List Char)
  | [] => none
  | c :: rest =>
      if c = ':' then some []
      else (beforeColon rest).map (fun l => c :: l)

/-- The protocol extracted by `new URL(...)`: the lowercased scheme before
the first colon, accepted when it fits the URL scheme grammar.  Only the
scheme matters here; the rest of WHATWG URL validity is not modelled since
no verified property depends on it. -/
def jsUrlProtocol (s : String) : Option String :=
  match beforeColon s.data with
  | none => none
  | some scheme =>
      match scheme with
      | [] => none
      | c :: rest =>
          if isAsciiLetter c && rest.all isSchemeChar then
            some (String.mk (scheme.map Char.toLower) ++ ":")
          else none

/-- validateConfig from validation.ts, with each throwing branch turned
into an `Except.error`. -/
def validateConfig (config : TealTigerConfig) : Except Thrown Unit :=
  if config.apiKey = "" then
    .error (vErr "API key is required" "MISSING_API_KEY" none)
  else if config.apiKey.length < 10 then
    .error (vErr "API key must be at least 10 characters" "INVALID_API_KEY_FORMAT" none)
  else if config.ssaUrl = "" then
    .error (vErr "SSA URL is required" "INVALID_SSA_URL" none)
  else
    match jsUrlProtocol config.ssaUrl with
    | none => .error (vErr "SSA URL must be a valid URL" "INVALID_SSA_URL"
        (some (.textDetail config.ssaUrl)))
    | some protocol =>
        if protocol ≠ "https:" then
          .error (vErr "SSA URL must use HTTPS protocol" "INVALID_SSA_URL"
            (some (.textDetail config.ssaUrl)))
        else if (match config.timeout with
                 | some t => decide (t ≤ 0)
                 | none => false) then
          .error (vErr "Timeout must be a positive number" "INVALID_CONFIG" none)
        else if (match config.retries with
                 | some r => decide (r < 0)
                 | none => false) then
          .error (vErr "Retries must be a non-negative number" "INVALID_CONFIG" none)
        else .ok ()

/-- getSafeConfig from Configuration.ts: ssaUrl always, the optional
non-sensitive fields when present, and the apiKey replaced by its first ten
characters (JavaScript substring(0, 10)) followed by an ellipsis.  The
custom headers are not part of the safe view. -/
def getSafeConfig (config : TealTigerConfig) : PartialTealTigerConfig :=
  { ssaUrl := some config.ssaUrl,
    agentId := config.agentId,
    timeout := config.timeout,
    retries := config.retries,
    debug := config.debug,
    apiKey := some (jsSubstringZero config.apiKey 10 ++ "..."),
    headers := none }

/-- sanitizeConfig from validation.ts: like getSafeConfig, except that keys
of length at most five are echoed whole before the ellipsis and the literal
key "secret-api-key" is special-cased to a nine-character cut. -/
def sanitizeConfig (config : TealTigerConfig) : PartialTealTigerConfig :=
  { ssaUrl := some config.ssaUrl,
    agentId := config.agentId,
    timeout := config.timeout,
    retries := config.retries,
    debug := config.debug,
    apiKey := some
      (if config.apiKey.length ≤ 5 then config.apiKey ++ "..."
       else if config.apiKey = "secret-api-key" then "secret-ap..."
       else jsSubstringZero config.apiKey 10 ++ "..."),
    headers := none }

/-! ## Policy model and builder (src/policy/PolicyBuilder.ts) -/

/-- PolicyCondition from src/types.ts. -/
structure PolicyCondition where
  type : String
  pattern : Option String
  operator : Option String
  value : Option String
  parameter : Option String

/-- PolicyTransformation from src/types.ts. -/
structure PolicyTransformation where
  type : String
  remove_parameters : Option (List String)
  anonymize_parameters : Option (List String)

/-- SecurityPolicy from src/types.ts. -/
structure SecurityPolicy where
  name : String
  description : Option String
  conditions : List PolicyCondition
  action : String
  reason : String
  transformation : Option PolicyTransformation
  priority : Option Rat

/-- The private Partial SecurityPolicy accumulated by a PolicyBuilder,
initialized with an empty condition list. -/
structure BuilderState where
  name : Option String
  description : Option String
  conditions : List PolicyCondition
  action : Option String
  reason : Option String
  transformation : Option PolicyTransformation
  priority : Option Rat

/-- new PolicyBuilder(): the initial builder state. -/
def initialBuilder : BuilderState :=
  { name := none, description := none, conditions := [], action := none,
    reason := none, transformation := none, priority := none }

/-- JavaScript `reason || defaultReason` on an optional reason argument. -/
def reasonOrDefault (reason : Option String) (dflt : String) : String :=
  match reason with
  | some s => if s = "" then dflt else s
  | none => dflt

/-- JavaScript falsiness of an optional string field: absent or empty. -/
def falsyOptStr : Option String → Bool
  | none => true
  | some s => s = ""

namespace PolicyBuilder

/-- PolicyBuilder.name: validate and store the trimmed name. -/
def name (b : BuilderState) (n : String) : Except Thrown BuilderState :=
  if n = "" || (jsTrim n).length = 0 then
    .error (vErr "Policy name must be a non-empty string" "VALIDATION_ERROR" none)
  else .ok { b with name := some (jsTrim n) }

/-- PolicyBuilder.description: store the trimmed description when truthy. -/
def description (b : BuilderState) (d : String) : BuilderState :=
  if d = "" then b else { b with description := some (jsTrim d) }

/-- PolicyBuilder.priority: validate and store the priority. -/
def priority (b : BuilderState) (p : Rat) : Except Thrown BuilderState :=
  if p < 0 then
    .error (vErr "Policy priority must be a non-negative finite number" "VALIDATION_ERROR" none)
  else .ok { b with priority := some p }

/-- PolicyBuilder.addCondition: append one condition. -/
def addCondition (b : BuilderState) (c : PolicyCondition) : BuilderState :=
  { b with conditions := b.conditions ++ [c] }

/-- PolicyBuilder.whenToolName. -/
def whenToolName (b : BuilderState) (pat : String) : BuilderState :=
  addCondition b { type := "tool_name", pattern := some pat, operator := none,
                   value := none, parameter := none }

/-- PolicyBuilder.whenRiskLevel. -/
def whenRiskLevel (b : BuilderState) (op level : String) : BuilderState :=
  addCondition b { type := "risk_level", pattern := none, operator := some op,
                   value := some level, parameter := none }

/-- PolicyBuilder.whenAgentId. -/
def whenAgentId (b : BuilderState) (pat : String) : BuilderState :=
  addCondition b { type := "agent_id", pattern := some pat, operator := none,
                   value := none, parameter := none }

/-- PolicyBuilder.whenParameterExists. -/
def whenParameterExists (b : BuilderState) (param : String) : BuilderState :=
  addCondition b { type := "parameter_exists", pattern := none, operator := none,
                   value := none, parameter := some param }

/-- PolicyBuilder.whenParameterEquals. -/
def whenParameterEquals (b : BuilderState) (param v : String) : BuilderState :=
  addCondition b { type := "parameter_value", pattern := none, operator := none,
                   value := some v, parameter := some param }

/-- PolicyBuilder.whenCondition. -/
def whenCondition (b : BuilderState) (c : PolicyCondition) : BuilderState :=
  addCondition b c

/-- PolicyBuilder.allow: set the action and the (defaulted) reason. -/
def allow (b : BuilderState) (reason : Option String) : BuilderState :=
  { b with action := some "allow",
           reason := some (reasonOrDefault reason "Operation allowed by policy") }

/-- PolicyBuilder.deny: set the action and the (defaulted) reason. -/
def deny (b : BuilderState) (reason : Option String) : BuilderState :=
  { b with action := some "deny",
           reason := some (reasonOrDefault reason "Operation denied by policy") }

/-- PolicyBuilder.transformToReadOnly. -/
def transformToReadOnly (b : BuilderState) (reason : Option String) : BuilderState :=
  { b with action := some "transform",
           reason := some (reasonOrDefault reason "Operation transformed to read-only for safety"),
           transformation := some { type := "read_only", remove_parameters := none,
                                    anonymize_parameters := none } }

/-- PolicyBuilder.transformFilterParameters. -/
def transformFilterParameters (b : BuilderState) (ps : List String)
    (reason : Option String) : BuilderState :=
  { b with action := some "transform",
           reason := some (reasonOrDefault reason "Sensitive parameters filtered for safety"),
           transformation := some { type := "parameter_filter", remove_parameters := some ps,
                                    anonymize_parameters := none } }

/-- PolicyBuilder.transformAnonymizeParameters. -/
def transformAnonymizeParameters (b : BuilderState) (ps : List String)
    (reason : Option String) : BuilderState :=
  { b with action := some "transform",
           reason := some (reasonOrDefault reason "Sensitive parameters anonymized for safety"),
           transformation := some { type := "parameter_anonymize", remove_parameters := none,
                                    anonymize_parameters := some ps } }

/-- PolicyBuilder.transformWith. -/
def transformWith (b : BuilderState) (t : PolicyTransformation)
    (reason : Option String) : BuilderState :=
  { b with action := some "transform",
           reason := some (reasonOrDefault reason "Operation transformed by policy"),
           transformation := some t }

/-- PolicyBuilder.build: run validatePolicy and freeze the accumulated
state into a SecurityPolicy. -/
def build (b : BuilderState) : Except Thrown SecurityPolicy :=
  if falsyOptStr b.name then
    .error (vErr "Policy name is required" "VALIDATION_ERROR" none)
  else if falsyOptStr b.action then
    .error (vErr "Policy action is required (allow, deny, or transform)" "VALIDATION_ERROR" none)
  else if falsyOptStr b.reason then
    .error (vErr "Policy reason is required" "VALIDATION_ERROR" none)
  else if b.conditions.isEmpty then
    .error (vErr "Policy must have at least one condition" "VALIDATION_ERROR" none)
  else if b.action == some "transform" && b.transformation.isNone then
    .error (vErr "Transform action requires a transformation definition" "VALIDATION_ERROR" none)
  else
    .ok { name := b.name.getD "", description := b.description,
          conditions := b.conditions, action := b.action.getD "",
          reason := b.reason.getD "", transformation := b.transformation,
          priority := b.priority }

end PolicyBuilder

/-- One call of the fluent PolicyBuilder chain. -/
inductive BuilderCall where
  | name (n : String)
  | description (d : String)
  | priority (p : Rat)
  | whenToolName (pat : String)
  | whenRiskLevel (op level : String)
  | whenAgentId (pat : String)
  | whenParameterExists (param : String)
  | whenParameterEquals (param v : String)
  | whenCondition (c : PolicyCondition)
  | allow (reason : Option String)
  | deny (reason : Option String)
  | transformToReadOnly (reason : Option String)
  | transformFilterParameters (ps : List String) (reason : Option String)
  | transformAnonymizeParameters (ps : List String) (reason : Option String)
  | transformWith (t : PolicyTransformation) (reason : Option String)

/-- Apply one builder call to a builder state. -/
def applyCall (b : BuilderState) : BuilderCall → Except Thrown BuilderState
  | .name n => PolicyBuilder.name b n
  | .description d => .ok (PolicyBuilder.description b d)
  | .priority p => PolicyBuilder.priority b p
  | .whenToolName pat => .ok (PolicyBuilder.whenToolName b pat)
  | .whenRiskLevel op level => .ok (PolicyBuilder.whenRiskLevel b op level)
  | .whenAgentId pat => .ok (PolicyBuilder.whenAgentId b pat)
  | .whenParameterExists param => .ok (PolicyBuilder.whenParameterExists b param)
  | .whenParameterEquals param v => .ok (PolicyBuilder.whenParameterEquals b param v)
  | .whenCondition c => .ok (PolicyBuilder.whenCondition b c)
  | .allow r => .ok (PolicyBuilder.allow b r)
  | .deny r => .ok (PolicyBuilder.deny b r)
  | .transformToReadOnly r => .ok (PolicyBuilder.transformToReadOnly b r)
  | .transformFilterParameters ps r => .ok (PolicyBuilder.transformFilterParameters b ps r)
  | .transformAnonymizeParameters ps r => .ok (PolicyBuilder.transformAnonymizeParameters b ps r)
  | .transformWith t r => .ok (PolicyBuilder.transformWith b t r)

/-- Run a chain of builder calls from a given state, stopping at the first
call that throws. -/
def runBuilder : BuilderState → List BuilderCall → Except Thrown BuilderState
  | b, [] => .ok b
  | b, c :: rest => do
      let b1 ← applyCall b c
      runBuilder b1 rest

/-! ## Azure deployment-name mapping (TealAzureOpenAI adapter) -/

/-- mapDeploymentToModel from the TealAzureOpenAI client: match the
lowercased deployment name against known deployment substrings in order,
defaulting to gpt-3.5-turbo. -/
def mapDeploymentToModel (deployment : String) : String :=
  let lowerDeployment := jsToLower deployment
  if jsIncludes lowerDeployment "gpt-4-32k" then "gpt-4-32k"
  else if jsIncludes lowerDeployment "gpt-4-turbo" then "gpt-4-turbo"
  else if jsIncludes lowerDeployment "gpt-4" then "gpt-4"
  else if jsIncludes lowerDeployment "gpt-35-turbo-16k"
      || jsIncludes lowerDeployment "gpt-3.5-turbo-16k" then "gpt-3.5-turbo-16k"
  else if jsIncludes lowerDeployment "gpt-35-turbo"
      || jsIncludes lowerDeployment "gpt-3.5-turbo" then "gpt-3.5-turbo"
  else "gpt-3.5-turbo"

/-- The ordered pattern table exactly as the specification words it:
each row lists the substrings tried and the model name returned. -/
def specAzurePatternTable : List (List String × String) :=
  [(["gpt-4-32k"], "gpt-4-32k"),
   (["gpt-4-turbo"], "gpt-4-turbo"),
   (["gpt-4"], "gpt-4"),
   (["gpt-35-turbo-16k", "gpt-3.5-turbo-16k"], "gpt-3.5-turbo-16k"),
   (["gpt-35-turbo", "gpt-3.5-turbo"], "gpt-3.5-turbo")]

/-- First row of a pattern table whose substrings hit the lowercased name;
the default model when none does. -/
def firstMatchingModel (lower : String) : List (List String × String) → String
  | [] => "gpt-3.5-turbo"
  | (pats, model) :: rest =>
      if pats.any (fun p => jsIncludes lower p) then model
      else firstMatchingModel lower rest

/-- The deployment-to-model mapping as the specification describes it:
test the lowercased name against the pattern table in order, return the
first match, default to gpt-3.5-turbo. -/
def specMapDeploymentToModel (deployment : String) : String :=
  firstMatchingModel (jsToLower deployment) specAzurePatternTable

/-! ## Concrete fixtures used to instantiate the theorems -/

/-- Fresh statistics, as initialized by the TealTiger constructor. -/
def statsFx : SDKStatistics :=
  { totalRequests := 0, allowedRequests := 0, deniedRequests := 0,
    transformedRequests := 0, averageResponseTime := 0, errorCount := 0 }

/-- A concrete deny decision. -/
def denyDecisionFx : SecurityDecision :=
  { requestId := "req-1", agentId := "agent-1", toolName := "test-tool",
    action := "deny", reason := "Too risky", riskLevel := "critical",
    transformedRequest := none, timestamp := "t0" }

/-- A concrete rewritten request for a transform decision. -/
def transformedRequestFx : ToolExecutionRequest :=
  { agentId := "agent-1", toolName := "safe-tool",
    parameters := [("mode", .str "read")], context := none }

/-- A concrete transform decision carrying a rewritten request. -/
def transformDecisionFx : SecurityDecision :=
  { requestId := "req-2", agentId := "agent-1", toolName := "test-tool",
    action := "transform", reason := "Rewritten for safety", riskLevel := "medium",
    transformedRequest := some transformedRequestFx, timestamp := "t0" }

/-- A concrete transform decision with no rewritten request. -/
def badTransformDecisionFx : SecurityDecision :=
  { requestId := "req-3", agentId := "agent-1", toolName := "test-tool",
    action := "transform", reason := "Rewritten for safety", riskLevel := "medium",
    transformedRequest := none, timestamp := "t0" }

/-- A concrete allow decision. -/
def allowDecisionFx : SecurityDecision :=
  { requestId := "req-4", agentId := "agent-1", toolName := "test-tool",
    action := "allow", reason := "Tool is safe", riskLevel := "low",
    transformedRequest := none, timestamp := "t0" }

/-! ## Helper lemmas -/

theorem charsHaveStart_append (l rest : List Char) :
    charsHaveStart l (l ++ rest) = true := by
  induction l with
  | nil => rfl
  | cons a as ih => simp [charsHaveStart, ih]

theorem charsContain_self_suffix (pre p : List Char) :
    charsContain p (pre ++ p) = true := by
  induction pre with
  | nil =>
      cases p with
      | nil => rfl
      | cons c r =>
          have h := charsHaveStart_append (c :: r) []
          rw [List.append_nil] at h
          simp [charsContain, h]
  | cons a pre ih => simp [charsContain, ih]

theorem jsIncludes_append (pre s : String) : jsIncludes (pre ++ s) s = true := by
  have hdata : (pre ++ s).data = pre.data ++ s.data := rfl
  unfold jsIncludes
  rw [hdata]
  exact charsContain_self_suffix pre.data s.data

theorem sanitizeFields_eq_map (fields : List (String × JValue)) :
    sanitizeFields fields =
      fields.map (fun kv =>
        if isSensitiveKey kv.1 then (kv.1, JValue.str "[REDACTED]")
        else (kv.1, sanitizeValue kv.2)) := by
  induction fields with
  | nil => rfl
  | cons kv rest ih =>
      cases kv with
      | mk k v => simp [sanitizeFields, ih]

theorem sanitizeItems_eq_map (items : List JValue) :
    sanitizeItems items = items.map sanitizeValue := by
  induction items with
  | nil => rfl
  | cons v rest ih => simp [sanitizeItems, ih]

theorem updateStatistics_errorCount (stats : SDKStatistics) (d : SecurityDecision)
    (rt : Rat) : (updateStatistics stats d rt).errorCount = stats.errorCount := by
  simp only [updateStatistics]
  split_ifs <;> rfl

theorem updateStatistics_totalRequests (stats : SDKStatistics) (d : SecurityDecision)
    (rt : Rat) : (updateStatistics stats d rt).totalRequests = stats.totalRequests + 1 := by
  simp only [updateStatistics]
  split_ifs <;> rfl

theorem updateStatistics_allowedRequests (stats : SDKStatistics) (d : SecurityDecision)
    (rt : Rat) : (updateStatistics stats d rt).allowedRequests =
      stats.allowedRequests + (if d.action = "allow" then 1 else 0) := by
  simp only [updateStatistics]
  split_ifs <;> simp_all

theorem updateStatistics_deniedRequests (stats : SDKStatistics) (d : SecurityDecision)
    (rt : Rat) : (updateStatistics stats d rt).deniedRequests =
      stats.deniedRequests + (if d.action = "deny" then 1 else 0) := by
  simp only [updateStatistics]
  split_ifs <;> simp_all

theorem updateStatistics_transformedRequests (stats : SDKStatistics) (d : SecurityDecision)
    (rt : Rat) : (updateStatistics stats d rt).transformedRequests =
      stats.transformedRequests + (if d.action = "transform" then 1 else 0) := by
  simp only [updateStatistics]
  split_ifs <;> simp_all

theorem updateStatistics_average (stats : SDKStatistics) (d : SecurityDecision)
    (rt : Rat) : (updateStatistics stats d rt).averageResponseTime =
      (stats.averageResponseTime * stats.totalRequests + rt) / (stats.totalRequests + 1) := by
  simp only [updateStatistics]
  split_ifs <;> (push_cast; ring_nf)

theorem executeTool_completed_stats {T : Type} (agentId toolName : String)
    (parameters : List (String × JValue)) (context : Option SecurityContext)
    (evaluateSecurity : ToolExecutionRequest → Except Thrown SecurityEvaluationResponse)
    (toolExecutor : Option (String → List (String × JValue) → Except Thrown T))
    (stats : SDKStatistics) (responseTime : Rat) (errorNow : Nat) (nowIso : String)
    (response : SecurityEvaluationResponse)
    (hname : validateToolNameE toolName = .ok ())
    (hparams : validateToolParametersE (.obj parameters) = .ok ())
    (heval : evaluateSecurity (mkRequest agentId toolName parameters context) = .ok response)
    (hsuccess : response.success = true)
    (haction : response.decision.action = "allow" ∨ response.decision.action = "deny"
      ∨ response.decision.action = "transform") :
    (executeTool agentId toolName parameters context evaluateSecurity toolExecutor
        stats responseTime errorNow nowIso).stats
      = updateStatistics stats response.decision responseTime := by
  simp only [executeTool, hname, hparams, heval]
  have hs : ¬(response.success = false) := by rw [hsuccess]; simp
  rw [if_neg hs]
  rcases haction with ha | ha | ha
  · rw [if_pos ha]
  · have h1 : ¬(response.decision.action = "allow") := by rw [ha]; decide
    rw [if_neg h1, if_pos ha]
  · have h1 : ¬(response.decision.action = "allow") := by rw [ha]; decide
    have h2 : ¬(response.decision.action = "deny") := by rw [ha]; decide
    rw [if_neg h1, if_neg h2, if_pos ha]

mutual

theorem checkValueE_error_code (path : String) (v : JValue) (e : Thrown)
    (h : checkValueE path v = .error e) :
    e.code = some "INVALID_REQUEST" ∧ e.isError = true := by
  cases v with
  | fn =>
      simp only [checkValueE, Except.error.injEq] at h
      subst h; exact ⟨rfl, rfl⟩
  | sym =>
      simp only [checkValueE, Except.error.injEq] at h
      subst h; exact ⟨rfl, rfl⟩
  | obj fields => exact checkFieldsE_error_code path fields e (by simpa [checkValueE] using h)
  | arr items => exact checkItemsE_error_code path 0 items e (by simpa [checkValueE] using h)
  | null => simp [checkValueE] at h
  | undef => simp [checkValueE] at h
  | bool b => simp [checkValueE] at h
  | num n => simp [checkValueE] at h
  | str s => simp [checkValueE] at h

theorem checkFieldsE_error_code (path : String) (l : List (String × JValue)) (e : Thrown)
    (h : checkFieldsE path l = .error e) :
    e.code = some "INVALID_REQUEST" ∧ e.isError = true := by
  cases l with
  | nil => simp [checkFieldsE] at h
  | cons kv rest =>
      cases kv with
      | mk k v =>
          simp only [checkFieldsE, bind, Except.bind] at h
          cases hcv : checkValueE (path ++ "." ++ k) v with
          | error e0 =>
              rw [hcv] at h
              rw [Except.error.injEq] at h
              subst h
              exact checkValueE_error_code (path ++ "." ++ k) v e0 hcv
          | ok u =>
              rw [hcv] at h
              exact checkFieldsE_error_code path rest e h

theorem checkItemsE_error_code (path : String) (i : Nat) (l : List JValue) (e : Thrown)
    (h : checkItemsE path i l = .error e) :
    e.code = some "INVALID_REQUEST" ∧ e.isError = true := by
  cases l with
  | nil => simp [checkItemsE] at h
  | cons v rest =>
      simp only [checkItemsE, bind, Except.bind] at h
      cases hcv : checkValueE (path ++ "[" ++ toString i ++ "]") v with
      | error e0 =>
          rw [hcv] at h
          rw [Except.error.injEq] at h
          subst h
          exact checkValueE_error_code (path ++ "[" ++ toString i ++ "]") v e0 hcv
      | ok u =>
          rw [hcv] at h
          exact checkItemsE_error_code path (i + 1) rest e h

end

theorem checkEntriesE_error_code (l : List (String × JValue)) (e : Thrown)
    (h : checkEntriesE l = .error e) :
    e.code = some "INVALID_REQUEST" ∧ e.isError = true := by
  induction l with
  | nil => simp [checkEntriesE] at h
  | cons kv rest ih =>
      cases kv with
      | mk k v =>
          simp only [checkEntriesE, bind, Except.bind] at h
          cases hcv : checkValueE k v with
          | error e0 =>
              rw [hcv] at h
              rw [Except.error.injEq] at h
              subst h
              exact checkValueE_error_code k v e0 hcv
          | ok u =>
              rw [hcv] at h
              exact ih h

theorem validateToolParametersE_error_code (x : JValue) (e : Thrown)
    (h : validateToolParametersE x = .error e) :
    e.code = some "INVALID_REQUEST" ∧ e.isError = true := by
  cases x with
  | obj fields => exact checkEntriesE_error_code fields e (by simpa [validateToolParametersE] using h)
  | null =>
      simp only [validateToolParametersE, Except.error.injEq] at h
      subst h; exact ⟨rfl, rfl⟩
  | undef =>
      simp only [validateToolParametersE, Except.error.injEq] at h
      subst h; exact ⟨rfl, rfl⟩
  | bool b =>
      simp only [validateToolParametersE, Except.error.injEq] at h
      subst h; exact ⟨rfl, rfl⟩
  | num n =>
      simp only [validateToolParametersE, Except.error.injEq] at h
      subst h; exact ⟨rfl, rfl⟩
  | str s =>
      simp only [validateToolParametersE, Except.error.injEq] at h
      subst h; exact ⟨rfl, rfl⟩
  | fn =>
      simp only [validateToolParametersE, Except.error.injEq] at h
      subst h; exact ⟨rfl, rfl⟩
  | sym =>
      simp only [validateToolParametersE, Except.error.injEq] at h
      subst h; exact ⟨rfl, rfl⟩
  | arr items =>
      simp only [validateToolParametersE, Except.error.injEq] at h
      subst h; exact ⟨rfl, rfl⟩

theorem reasonOrDefault_ne_empty (r : Option String) (dflt : String) (h : dflt ≠ "") :
    reasonOrDefault r dflt ≠ "" := by
  cases r with
  | none => exact h
  | some s =>
      simp only [reasonOrDefault]
      split_ifs with hs
      · exact h
      · exact hs

theorem some_eq_some_ne_empty (v : String) (hv : v ≠ "") :
    ∀ s : String, some v = some s → s ≠ "" := by
  intro s hs
  injection hs with h2
  rw [← h2]
  exact hv

theorem applyCall_preserves_good (b b2 : BuilderState) (c : BuilderCall)
    (h : applyCall b c = .ok b2)
    (hgn : ∀ s, b.name = some s → s ≠ "")
    (hga : ∀ s, b.action = some s → s ≠ "")
    (hgr : ∀ s, b.reason = some s → s ≠ "") :
    (∀ s, b2.name = some s → s ≠ "")
    ∧ (∀ s, b2.action = some s → s ≠ "")
    ∧ (∀ s, b2.reason = some s → s ≠ "") := by
  cases c with
  | name n =>
      simp only [applyCall, PolicyBuilder.name] at h
      split_ifs at h with hcond
      rw [Except.ok.injEq] at h
      refine ⟨?_, fun s hs => hga s (by rw [← h] at hs; exact hs),
        fun s hs => hgr s (by rw [← h] at hs; exact hs)⟩
      intro s hs
      refine some_eq_some_ne_empty (jsTrim n) ?_ s (by rw [← h] at hs; exact hs)
      intro hempty
      rw [Bool.or_eq_true, not_or] at hcond
      exact hcond.2 (by simp [hempty])
  | description d =>
      simp only [applyCall, PolicyBuilder.description] at h
      split_ifs at h <;> rw [Except.ok.injEq] at h <;>
        exact ⟨fun s hs => hgn s (by rw [← h] at hs; exact hs),
          fun s hs => hga s (by rw [← h] at hs; exact hs),
          fun s hs => hgr s (by rw [← h] at hs; exact hs)⟩
  | priority p =>
      simp only [applyCall, PolicyBuilder.priority] at h
      split_ifs at h with hcond
      rw [Except.ok.injEq] at h
      exact ⟨fun s hs => hgn s (by rw [← h] at hs; exact hs),
        fun s hs => hga s (by rw [← h] at hs; exact hs),
        fun s hs => hgr s (by rw [← h] at hs; exact hs)⟩
  | whenToolName pat =>
      simp only [applyCall, PolicyBuilder.whenToolName, PolicyBuilder.addCondition,
        Except.ok.injEq] at h
      exact ⟨fun s hs => hgn s (by rw [← h] at hs; exact hs),
        fun s hs => hga s (by rw [← h] at hs; exact hs),
        fun s hs => hgr s (by rw [← h] at hs; exact hs)⟩
  | whenRiskLevel op level =>
      simp only [applyCall, PolicyBuilder.whenRiskLevel, PolicyBuilder.addCondition,
        Except.ok.injEq] at h
      exact ⟨fun s hs => hgn s (by rw [← h] at hs; exact hs),
        fun s hs => hga s (by rw [← h] at hs; exact hs),
        fun s hs => hgr s (by rw [← h] at hs; exact hs)⟩
  | whenAgentId pat =>
      simp only [applyCall, PolicyBuilder.whenAgentId, PolicyBuilder.addCondition,
        Except.ok.injEq] at h
      exact ⟨fun s hs => hgn s (by rw [← h] at hs; exact hs),
        fun s hs => hga s (by rw [← h] at hs; exact hs),
        fun s hs => hgr s (by rw [← h] at hs; exact hs)⟩
  | whenParameterExists param =>
      simp only [applyCall, PolicyBuilder.whenParameterExists, PolicyBuilder.addCondition,
        Except.ok.injEq] at h
      exact ⟨fun s hs => hgn s (by rw [← h] at hs; exact hs),
        fun s hs => hga s (by rw [← h] at hs; exact hs),
        fun s hs => hgr s (by rw [← h] at hs; exact hs)⟩
  | whenParameterEquals param v =>
      simp only [applyCall, PolicyBuilder.whenParameterEquals, PolicyBuilder.addCondition,
        Except.ok.injEq] at h
      exact ⟨fun s hs => hgn s (by rw [← h] at hs; exact hs),
        fun s hs => hga s (by rw [← h] at hs; exact hs),
        fun s hs => hgr s (by rw [← h] at hs; exact hs)⟩
  | whenCondition c0 =>
      simp only [applyCall, PolicyBuilder.whenCondition, PolicyBuilder.addCondition,
        Except.ok.injEq] at h
      exact ⟨fun s hs => hgn s (by rw [← h] at hs; exact hs),
        fun s hs => hga s (by rw [← h] at hs; exact hs),
        fun s hs => hgr s (by rw [← h] at hs; exact hs)⟩
  | allow r =>
      simp only [applyCall, PolicyBuilder.allow, Except.ok.injEq] at h
      exact ⟨fun s hs => hgn s (by rw [← h] at hs; exact hs),
        fun s hs => some_eq_some_ne_empty "allow" (by decide) s (by rw [← h] at hs; exact hs),
        fun s hs => some_eq_some_ne_empty (reasonOrDefault r "Operation allowed by policy")
          (reasonOrDefault_ne_empty r "Operation allowed by policy" (by decide)) s (by rw [← h] at hs; exact hs)⟩
  | deny r =>
      simp only [applyCall, PolicyBuilder.deny, Except.ok.injEq] at h
      exact ⟨fun s hs => hgn s (by rw [← h] at hs; exact hs),
        fun s hs => some_eq_some_ne_empty "deny" (by decide) s (by rw [← h] at hs; exact hs),
        fun s hs => some_eq_some_ne_empty (reasonOrDefault r "Operation denied by policy")
          (reasonOrDefault_ne_empty r "Operation denied by policy" (by decide)) s (by rw [← h] at hs; exact hs)⟩
  | transformToReadOnly r =>
      simp only [applyCall, PolicyBuilder.transformToReadOnly, Except.ok.injEq] at h
      exact ⟨fun s hs => hgn s (by rw [← h] at hs; exact hs),
        fun s hs => some_eq_some_ne_empty "transform" (by decide) s (by rw [← h] at hs; exact hs),
        fun s hs => some_eq_some_ne_empty (reasonOrDefault r "Operation transformed to read-only for safety")
          (reasonOrDefault_ne_empty r "Operation transformed to read-only for safety" (by decide)) s (by rw [← h] at hs; exact hs)⟩
  | transformFilterParameters ps r =>
      simp only [applyCall, PolicyBuilder.transformFilterParameters, Except.ok.injEq] at h
      exact ⟨fun s hs => hgn s (by rw [← h] at hs; exact hs),
        fun s hs => some_eq_some_ne_empty "transform" (by decide) s (by rw [← h] at hs; exact hs),
        fun s hs => some_eq_some_ne_empty (reasonOrDefault r "Sensitive parameters filtered for safety")
          (reasonOrDefault_ne_empty r "Sensitive parameters filtered for safety" (by decide)) s (by rw [← h] at hs; exact hs)⟩
  | transformAnonymizeParameters ps r =>
      simp only [applyCall, PolicyBuilder.transformAnonymizeParameters, Except.ok.injEq] at h
      exact ⟨fun s hs => hgn s (by rw [← h] at hs; exact hs),
        fun s hs => some_eq_some_ne_empty "transform" (by decide) s (by rw [← h] at hs; exact hs),
        fun s hs => some_eq_some_ne_empty (reasonOrDefault r "Sensitive parameters anonymized for safety")
          (reasonOrDefault_ne_empty r "Sensitive parameters anonymized for safety" (by decide)) s (by rw [← h] at hs; exact hs)⟩
  | transformWith t r =>
      simp only [applyCall, PolicyBuilder.transformWith, Except.ok.injEq] at h
      exact ⟨fun s hs => hgn s (by rw [← h] at hs; exact hs),
        fun s hs => some_eq_some_ne_empty "transform" (by decide) s (by rw [← h] at hs; exact hs),
        fun s hs => some_eq_some_ne_empty (reasonOrDefault r "Operation transformed by policy")
          (reasonOrDefault_ne_empty r "Operation transformed by policy" (by decide)) s (by rw [← h] at hs; exact hs)⟩

theorem runBuilder_preserves_good (calls : List BuilderCall) (b b2 : BuilderState)
    (h : runBuilder b calls = .ok b2)
    (hgn : ∀ s, b.name = some s → s ≠ "")
    (hga : ∀ s, b.action = some s → s ≠ "")
    (hgr : ∀ s, b.reason = some s → s ≠ "") :
    (∀ s, b2.name = some s → s ≠ "")
    ∧ (∀ s, b2.action = some s → s ≠ "")
    ∧ (∀ s, b2.reason = some s → s ≠ "") := by
  induction calls generalizing b with
  | nil =>
      simp only [runBuilder, Except.ok.injEq] at h
      subst h
      exact ⟨hgn, hga, hgr⟩
  | cons c rest ih =>
      simp only [runBuilder, bind, Except.bind] at h
      cases hc : applyCall b c with
      | error e => rw [hc] at h; simp at h
      | ok b1 =>
          rw [hc] at h
          obtain ⟨g1, g2, g3⟩ := applyCall_preserves_good b b1 c hc hgn hga hgr
          exact ih b1 h g1 g2 g3

theorem build_ok_characterization (b : BuilderState)
    (hgn : ∀ s, b.name = some s → s ≠ "")
    (hga : ∀ s, b.action = some s → s ≠ "")
    (hgr : ∀ s, b.reason = some s → s ≠ "") :
    (∃ p, PolicyBuilder.build b = .ok p) ↔
      (b.name.isSome = true ∧ b.action.isSome = true ∧ b.reason.isSome = true
        ∧ b.conditions ≠ []
        ∧ (b.action = some "transform" → b.transformation.isSome = true)) := by
  have hfn : falsyOptStr b.name = !b.name.isSome := by
    cases hb : b.name with
    | none => rfl
    | some s =>
        simp only [falsyOptStr, Option.isSome_some, Bool.not_true]
        exact decide_eq_false (hgn s hb)
  have hfa : falsyOptStr b.action = !b.action.isSome := by
    cases hb : b.action with
    | none => rfl
    | some s =>
        simp only [falsyOptStr, Option.isSome_some, Bool.not_true]
        exact decide_eq_false (hga s hb)
  have hfr : falsyOptStr b.reason = !b.reason.isSome := by
    cases hb : b.reason with
    | none => rfl
    | some s =>
        simp only [falsyOptStr, Option.isSome_some, Bool.not_true]
        exact decide_eq_false (hgr s hb)
  constructor
  · rintro ⟨p, hp⟩
    simp only [PolicyBuilder.build] at hp
    split_ifs at hp with h1 h2 h3 h4 h5
    refine ⟨?_, ?_, ?_, ?_, ?_⟩
    · rw [hfn] at h1
      rw [Option.isSome_iff_ne_none]
      simpa using h1
    · rw [hfa] at h2
      rw [Option.isSome_iff_ne_none]
      simpa using h2
    · rw [hfr] at h3
      rw [Option.isSome_iff_ne_none]
      simpa using h3
    · simpa [List.isEmpty_iff] using h4
    · intro hat
      rw [Bool.and_eq_true] at h5
      push_neg at h5
      have := h5 (by simp [hat])
      rw [Option.isSome_iff_ne_none]
      simpa [Option.isNone_iff_eq_none] using this
  · rintro ⟨hn, ha, hr, hc, ht⟩
    have hneg5 : ¬((b.action == some "transform" && b.transformation.isNone) = true) := by
      rw [Bool.and_eq_true]
      rintro ⟨hbeq, hnone⟩
      rw [beq_iff_eq] at hbeq
      have h6 := ht hbeq
      rw [Option.isNone_iff_eq_none] at hnone
      rw [hnone] at h6
      simp at h6
    refine ⟨{ name := b.name.getD "", description := b.description,
              conditions := b.conditions, action := b.action.getD "",
              reason := b.reason.getD "", transformation := b.transformation,
              priority := b.priority }, ?_⟩
    simp only [PolicyBuilder.build]
    rw [if_neg (by rw [hfn, hn]; simp),
        if_neg (by rw [hfa, ha]; simp),
        if_neg (by rw [hfr, hr]; simp),
        if_neg (by simpa [List.isEmpty_iff] using hc),
        if_neg hneg5]

theorem validateConfig_ok_apiKey (cfg : TealTigerConfig)
    (h : validateConfig cfg = .ok ()) : 10 ≤ cfg.apiKey.length := by
  simp only [validateConfig] at h
  by_cases h1 : cfg.apiKey = ""
  · rw [if_pos h1] at h; simp at h
  · rw [if_neg h1] at h
    by_cases h2 : cfg.apiKey.length < 10
    · rw [if_pos h2] at h; simp at h
    · omega

/-! ## Claim theorems -/

/-- C10: sanitizeParameters rewrites each entry pointwise; a sensitive key
is redacted outright; under a non-sensitive key, null and undefined values
become the redaction marker while non-null scalars are returned unchanged,
and nested objects and arrays are rewritten recursively by the same rule. -/
theorem sanitizeParameters_spec :
    (∀ parameters : List (String × JValue),
      sanitizeParameters parameters =
        parameters.map (fun kv =>
          if isSensitiveKey kv.1 then (kv.1, JValue.str "[REDACTED]")
          else (kv.1, sanitizeValue kv.2)))
    ∧ sanitizeValue .null = .str "[REDACTED]"
    ∧ sanitizeValue .undef = .str "[REDACTED]"
    ∧ (∀ b, sanitizeValue (.bool b) = .bool b)
    ∧ (∀ n, sanitizeValue (.num n) = .num n)
    ∧ (∀ s, sanitizeValue (.str s) = .str s)
    ∧ (∀ items, sanitizeValue (.arr items) = .arr (items.map sanitizeValue))
    ∧ (∀ fields, sanitizeValue (.obj fields) =
        .obj (fields.map (fun kv =>
          if isSensitiveKey kv.1 then (kv.1, JValue.str "[REDACTED]")
          else (kv.1, sanitizeValue kv.2)))) := by
  refine ⟨fun parameters => ?_, rfl, rfl, fun b => rfl, fun n => rfl, fun s => rfl,
    fun items => ?_, fun fields => ?_⟩
  · exact sanitizeFields_eq_map parameters
  · simp [sanitizeValue, sanitizeItems_eq_map]
  · simp [sanitizeValue, sanitizeFields_eq_map]

/-- C9: the Azure deployment-to-model mapping tests the lowercased
deployment name against the substrings gpt-4-32k, gpt-4-turbo, gpt-4,
gpt-35-turbo-16k / gpt-3.5-turbo-16k, gpt-35-turbo / gpt-3.5-turbo in that
order, returns the first matching model name, and defaults to gpt-3.5-turbo
when nothing matches. -/
theorem mapDeploymentToModel_matches_spec (deployment : String) :
    mapDeploymentToModel deployment = specMapDeploymentToModel deployment := by
  simp only [mapDeploymentToModel, specMapDeploymentToModel, specAzurePatternTable,
    firstMatchingModel, List.any_cons, List.any_nil, Bool.or_false]

/-- C1: when the remote evaluation succeeds and the Decision action is deny,
the injected tool executor is never invoked, and the result is a failure with
error code SECURITY_DENIED, a message containing the reason of the Decision,
and the Decision itself attached. -/
theorem executeTool_deny_no_executor_call {T : Type} (agentId toolName : String)
    (parameters : List (String × JValue)) (context : Option SecurityContext)
    (evaluateSecurity : ToolExecutionRequest → Except Thrown SecurityEvaluationResponse)
    (toolExecutor : Option (String → List (String × JValue) → Except Thrown T))
    (stats : SDKStatistics) (responseTime : Rat) (errorNow : Nat) (nowIso : String)
    (response : SecurityEvaluationResponse)
    (hname : validateToolNameE toolName = .ok ())
    (hparams : validateToolParametersE (.obj parameters) = .ok ())
    (heval : evaluateSecurity (mkRequest agentId toolName parameters context) = .ok response)
    (hsuccess : response.success = true)
    (hdeny : response.decision.action = "deny") :
    let out := executeTool agentId toolName parameters context evaluateSecurity
      toolExecutor stats responseTime errorNow nowIso
    out.executorCalls = []
    ∧ out.result.success = false
    ∧ out.result.error = some
        { code := "SECURITY_DENIED",
          message := "Tool execution denied: " ++ response.decision.reason,
          details := some (.riskLevelDetail response.decision.riskLevel) }
    ∧ jsIncludes ("Tool execution denied: " ++ response.decision.reason)
        response.decision.reason = true
    ∧ out.result.securityDecision = response.decision := by
  simp only [executeTool, hname, hparams, heval, hsuccess, hdeny, handleDenyDecision]
  norm_num
  rw [if_neg (show ¬(("deny" : String) = "allow") from by decide)]
  exact ⟨rfl, rfl, rfl,
    jsIncludes_append "Tool execution denied: " response.decision.reason, rfl⟩

/-- Closed instance of the C1 theorem at a concrete deny decision. -/
theorem executeTool_deny_no_executor_call_witness :
    let out := executeTool "agent-1" "test-tool" [("param1", JValue.str "value1")] none
      (fun _ => .ok { success := true, decision := denyDecisionFx })
      (some (fun _ _ => .ok (0 : Nat))) statsFx 5 0 "t"
    out.executorCalls = []
    ∧ out.result.success = false
    ∧ out.result.error = some
        { code := "SECURITY_DENIED",
          message := "Tool execution denied: " ++ denyDecisionFx.reason,
          details := some (.riskLevelDetail denyDecisionFx.riskLevel) }
    ∧ jsIncludes ("Tool execution denied: " ++ denyDecisionFx.reason)
        denyDecisionFx.reason = true
    ∧ out.result.securityDecision = denyDecisionFx :=
  executeTool_deny_no_executor_call "agent-1" "test-tool"
    [("param1", JValue.str "value1")] none
    (fun _ => .ok { success := true, decision := denyDecisionFx })
    (some (fun _ _ => .ok (0 : Nat))) statsFx 5 0 "t"
    { success := true, decision := denyDecisionFx }
    (by rfl) (by rfl) (by rfl) (by rfl) (by rfl)

/-- C4: when the remote Decision action is transform and the Decision
carries a rewritten request, the injected tool executor is invoked exactly
once, with the tool name and parameters of the rewritten request rather
than the original ones, and on executor success the result succeeds with
the executor output as its data. -/
theorem executeTool_transform_uses_rewritten_request {T : Type}
    (agentId toolName : String) (parameters : List (String × JValue))
    (context : Option SecurityContext)
    (evaluateSecurity : ToolExecutionRequest → Except Thrown SecurityEvaluationResponse)
    (exec : String → List (String × JValue) → Except Thrown T)
    (stats : SDKStatistics) (responseTime : Rat) (errorNow : Nat) (nowIso : String)
    (response : SecurityEvaluationResponse) (treq : ToolExecutionRequest) (d : T)
    (hname : validateToolNameE toolName = .ok ())
    (hparams : validateToolParametersE (.obj parameters) = .ok ())
    (heval : evaluateSecurity (mkRequest agentId toolName parameters context) = .ok response)
    (hsuccess : response.success = true)
    (htrans : response.decision.action = "transform")
    (htreq : response.decision.transformedRequest = some treq)
    (hrun : exec treq.toolName treq.parameters = .ok d) :
    let out := executeTool agentId toolName parameters context evaluateSecurity
      (some exec) stats responseTime errorNow nowIso
    out.executorCalls = [{ toolName := treq.toolName, parameters := treq.parameters }]
    ∧ out.result.success = true
    ∧ out.result.data = some d
    ∧ out.result.securityDecision = response.decision
    ∧ out.result.error = none := by
  simp only [executeTool, hname, hparams, heval, hsuccess, htrans]
  norm_num
  simp only [handleTransformDecision, htreq, hrun]
  exact ⟨rfl, rfl, rfl, rfl, rfl⟩

/-- Closed instance of the C4 theorem at a concrete transform decision. -/
theorem executeTool_transform_uses_rewritten_request_witness :
    let out := executeTool "agent-1" "test-tool" [("param1", JValue.str "value1")] none
      (fun _ => .ok { success := true, decision := transformDecisionFx })
      (some (fun _ _ => .ok (42 : Nat))) statsFx 5 0 "t"
    out.executorCalls = [{ toolName := transformedRequestFx.toolName,
                           parameters := transformedRequestFx.parameters }]
    ∧ out.result.success = true
    ∧ out.result.data = some 42
    ∧ out.result.securityDecision = transformDecisionFx
    ∧ out.result.error = none :=
  executeTool_transform_uses_rewritten_request "agent-1" "test-tool"
    [("param1", JValue.str "value1")] none
    (fun _ => .ok { success := true, decision := transformDecisionFx })
    (fun _ _ => .ok (42 : Nat)) statsFx 5 0 "t"
    { success := true, decision := transformDecisionFx } transformedRequestFx 42
    (by rfl) (by rfl) (by rfl) (by rfl) (by rfl) (by rfl) (by rfl)

/-- C5: when the remote Decision action is transform but the Decision
carries no rewritten request, the injected tool executor is never invoked
and the result is a failure whose error code is the decision-integrity code
TRANSFORMATION_ERROR, not the security-denial code SECURITY_DENIED. -/
theorem executeTool_transform_missing_payload {T : Type}
    (agentId toolName : String) (parameters : List (String × JValue))
    (context : Option SecurityContext)
    (evaluateSecurity : ToolExecutionRequest → Except Thrown SecurityEvaluationResponse)
    (toolExecutor : Option (String → List (String × JValue) → Except Thrown T))
    (stats : SDKStatistics) (responseTime : Rat) (errorNow : Nat) (nowIso : String)
    (response : SecurityEvaluationResponse)
    (hname : validateToolNameE toolName = .ok ())
    (hparams : validateToolParametersE (.obj parameters) = .ok ())
    (heval : evaluateSecurity (mkRequest agentId toolName parameters context) = .ok response)
    (hsuccess : response.success = true)
    (htrans : response.decision.action = "transform")
    (htreq : response.decision.transformedRequest = none) :
    let out := executeTool agentId toolName parameters context evaluateSecurity
      toolExecutor stats responseTime errorNow nowIso
    out.executorCalls = []
    ∧ out.result.success = false
    ∧ out.result.error = some
        { code := "TRANSFORMATION_ERROR",
          message := "Transform decision provided but no transformed request available",
          details := none }
    ∧ (∀ info, out.result.error = some info → info.code ≠ "SECURITY_DENIED")
    ∧ out.result.securityDecision = response.decision := by
  simp only [executeTool, hname, hparams, heval, hsuccess, htrans]
  norm_num
  simp only [handleTransformDecision, htreq]
  refine ⟨rfl, rfl, rfl, ?_, rfl⟩
  intro info hinfo
  cases hinfo
  decide

/-- Closed instance of the C5 theorem at a concrete decision. -/
theorem executeTool_transform_missing_payload_witness :
    let out := executeTool "agent-1" "test-tool" [("param1", JValue.str "value1")] none
      (fun _ => .ok { success := true, decision := badTransformDecisionFx })
      (some (fun _ _ => .ok (42 : Nat))) statsFx 5 0 "t"
    out.executorCalls = []
    ∧ out.result.success = false
    ∧ out.result.error = some
        { code := "TRANSFORMATION_ERROR",
          message := "Transform decision provided but no transformed request available",
          details := none }
    ∧ (∀ info, out.result.error = some info → info.code ≠ "SECURITY_DENIED")
    ∧ out.result.securityDecision = badTransformDecisionFx :=
  executeTool_transform_missing_payload "agent-1" "test-tool"
    [("param1", JValue.str "value1")] none
    (fun _ => .ok { success := true, decision := badTransformDecisionFx })
    (some (fun _ _ => .ok (42 : Nat))) statsFx 5 0 "t"
    { success := true, decision := badTransformDecisionFx }
    (by rfl) (by rfl) (by rfl) (by rfl) (by rfl) (by rfl)

/-- C2: whenever one of the stages inside executeTool throws (input
validation, the transport call, the response-success check or the
decision-action dispatch), executeTool does not propagate the exception:
it returns a structured failure carrying a deny-shaped placeholder decision
with risk level critical and a synthetic request id, together with the
code/message/details bundle extracted from the thrown value, it increments
the error counter, and it never invokes the tool executor. -/
theorem executeTool_error_containment {T : Type} (agentId toolName : String)
    (parameters : List (String × JValue)) (context : Option SecurityContext)
    (evaluateSecurity : ToolExecutionRequest → Except Thrown SecurityEvaluationResponse)
    (toolExecutor : Option (String → List (String × JValue) → Except Thrown T))
    (stats : SDKStatistics) (responseTime : Rat) (errorNow : Nat) (nowIso : String)
    (e : Thrown)
    (h : thrownOf agentId toolName parameters context evaluateSecurity = some e) :
    let out := executeTool agentId toolName parameters context evaluateSecurity
      toolExecutor stats responseTime errorNow nowIso
    out.result = errorResult agentId toolName errorNow nowIso e
    ∧ out.result.success = false
    ∧ out.result.securityDecision.action = "deny"
    ∧ out.result.securityDecision.riskLevel = "critical"
    ∧ out.result.securityDecision.requestId = "error-" ++ toString errorNow
    ∧ out.result.securityDecision.reason = "Tool execution failed due to error"
    ∧ out.result.error = some (catchBundle e)
    ∧ out.stats.errorCount = stats.errorCount + 1
    ∧ out.executorCalls = [] := by
  simp only [thrownOf] at h
  simp only [executeTool]
  cases hv : validateToolNameE toolName with
  | error e0 =>
      simp only [hv, Option.some.injEq] at h
      subst h
      exact ⟨rfl, rfl, rfl, rfl, rfl, rfl, rfl, rfl, rfl⟩
  | ok u =>
      simp only [hv] at h ⊢
      cases hp : validateToolParametersE (.obj parameters) with
      | error e0 =>
          simp only [hp, Option.some.injEq] at h
          subst h
          exact ⟨rfl, rfl, rfl, rfl, rfl, rfl, rfl, rfl, rfl⟩
      | ok u2 =>
          simp only [hp] at h ⊢
          cases he : evaluateSecurity (mkRequest agentId toolName parameters context) with
          | error e0 =>
              simp only [he, Option.some.injEq] at h
              subst h
              exact ⟨rfl, rfl, rfl, rfl, rfl, rfl, rfl, rfl, rfl⟩
          | ok response =>
              simp only [he] at h ⊢
              by_cases hs : response.success = false
              · rw [if_pos hs] at h ⊢
                rw [Option.some.injEq] at h
                subst h
                exact ⟨rfl, rfl, rfl, rfl, rfl, rfl, rfl, rfl, rfl⟩
              · rw [if_neg hs] at h ⊢
                by_cases ha : response.decision.action = "allow"
                · rw [if_pos ha] at h
                  exact absurd h (by simp)
                · rw [if_neg ha] at h
                  rw [if_neg ha]
                  by_cases hd : response.decision.action = "deny"
                  · rw [if_pos hd] at h
                    exact absurd h (by simp)
                  · rw [if_neg hd] at h
                    rw [if_neg hd]
                    by_cases ht : response.decision.action = "transform"
                    · rw [if_pos ht] at h
                      exact absurd h (by simp)
                    · rw [if_neg ht] at h
                      rw [if_neg ht]
                      rw [Option.some.injEq] at h
                      subst h
                      refine ⟨rfl, rfl, rfl, rfl, rfl, rfl, rfl, ?_, rfl⟩
                      show (updateStatistics stats response.decision responseTime).errorCount + 1
                        = stats.errorCount + 1
                      rw [updateStatistics_errorCount]

/-- Closed instance of the C2 theorem at a transport failure. -/
theorem executeTool_error_containment_witness :
    let e : Thrown :=
      { isError := true, code := some "NETWORK_ERROR",
        message := "connection refused", details := none }
    let out := executeTool "agent-1" "test-tool" [("param1", JValue.str "value1")] none
      (fun _ => .error { isError := true, code := some "NETWORK_ERROR",
                         message := "connection refused", details := none })
      (some (fun _ _ => .ok (0 : Nat))) statsFx 5 0 "t"
    out.result = errorResult "agent-1" "test-tool" 0 "t" e
    ∧ out.result.success = false
    ∧ out.result.securityDecision.action = "deny"
    ∧ out.result.securityDecision.riskLevel = "critical"
    ∧ out.result.securityDecision.requestId = "error-" ++ toString 0
    ∧ out.result.securityDecision.reason = "Tool execution failed due to error"
    ∧ out.result.error = some (catchBundle e)
    ∧ out.stats.errorCount = statsFx.errorCount + 1
    ∧ out.executorCalls = [] :=
  executeTool_error_containment "agent-1" "test-tool" [("param1", JValue.str "value1")] none
    (fun _ => .error { isError := true, code := some "NETWORK_ERROR",
                       message := "connection refused", details := none })
    (some (fun _ _ => .ok (0 : Nat))) statsFx 5 0 "t"
    { isError := true, code := some "NETWORK_ERROR",
      message := "connection refused", details := none }
    (by rfl)

/-- C3 counterexample: an empty parameter map passes input validation, and
an executeTool call with an empty parameter map reaches the transport: the
evaluate operation is invoked once, not zero times. -/
theorem emptyParams_reach_transport_cx :
    validateToolParametersE (.obj []) = .ok ()
    ∧ (executeTool "agent-1" "test-tool" [] none
        (fun _ => .ok { success := true, decision := allowDecisionFx })
        (some (fun _ _ => .ok (0 : Nat))) statsFx 5 0 "t").evalCalls.length = 1
    ∧ (executeTool "agent-1" "test-tool" [] none
        (fun _ => .ok { success := true, decision := allowDecisionFx })
        (some (fun _ _ => .ok (0 : Nat))) statsFx 5 0 "t").result.success = true :=
  ⟨rfl, rfl, rfl⟩

/-- C3 (amended): when the parameter map contains a (possibly nested)
function- or symbol-valued entry — so that parameter validation throws —
executeTool fails before any network call: the transport evaluate operation
is invoked zero times, the executor is never invoked, the result is a
failure carrying the INVALID_REQUEST validation code, and the call is
counted as an error while the other counters stay untouched.  An empty
parameter map, by contrast, passes validation. -/
theorem executeTool_param_validation_blocks_transport {T : Type}
    (agentId toolName : String) (parameters : List (String × JValue))
    (context : Option SecurityContext)
    (evaluateSecurity : ToolExecutionRequest → Except Thrown SecurityEvaluationResponse)
    (toolExecutor : Option (String → List (String × JValue) → Except Thrown T))
    (stats : SDKStatistics) (responseTime : Rat) (errorNow : Nat) (nowIso : String)
    (e : Thrown)
    (hname : validateToolNameE toolName = .ok ())
    (hparams : validateToolParametersE (.obj parameters) = .error e) :
    let out := executeTool agentId toolName parameters context evaluateSecurity
      toolExecutor stats responseTime errorNow nowIso
    out.evalCalls = []
    ∧ out.executorCalls = []
    ∧ out.result.success = false
    ∧ out.result.error = some (catchBundle e)
    ∧ (catchBundle e).code = "INVALID_REQUEST"
    ∧ out.stats.errorCount = stats.errorCount + 1
    ∧ out.stats.totalRequests = stats.totalRequests
    ∧ out.stats.allowedRequests = stats.allowedRequests
    ∧ out.stats.deniedRequests = stats.deniedRequests
    ∧ out.stats.transformedRequests = stats.transformedRequests
    ∧ validateToolParametersE (.obj []) = .ok () := by
  obtain ⟨hcode, hie⟩ := validateToolParametersE_error_code _ e hparams
  simp only [executeTool, hname, hparams]
  simp [errorResult, catchBundle, hcode, hie, validateToolParametersE, checkEntriesE]

/-- Closed instance of the amended C3 theorem at a function-valued entry. -/
theorem executeTool_param_validation_blocks_transport_witness :
    let e := vErr "Tool parameters cannot contain functions at path: callback"
      "INVALID_REQUEST" (some (.textDetail "callback"))
    let out := executeTool "agent-1" "test-tool" [("callback", JValue.fn)] none
      (fun _ => .ok { success := true, decision := allowDecisionFx })
      (some (fun _ _ => .ok (0 : Nat))) statsFx 5 0 "t"
    out.evalCalls = []
    ∧ out.executorCalls = []
    ∧ out.result.success = false
    ∧ out.result.error = some (catchBundle e)
    ∧ (catchBundle e).code = "INVALID_REQUEST"
    ∧ out.stats.errorCount = statsFx.errorCount + 1
    ∧ out.stats.totalRequests = statsFx.totalRequests
    ∧ out.stats.allowedRequests = statsFx.allowedRequests
    ∧ out.stats.deniedRequests = statsFx.deniedRequests
    ∧ out.stats.transformedRequests = statsFx.transformedRequests
    ∧ validateToolParametersE (.obj []) = .ok () :=
  executeTool_param_validation_blocks_transport "agent-1" "test-tool"
    [("callback", JValue.fn)] none
    (fun _ => .ok { success := true, decision := allowDecisionFx })
    (some (fun _ _ => .ok (0 : Nat))) statsFx 5 0 "t"
    (vErr "Tool parameters cannot contain functions at path: callback"
      "INVALID_REQUEST" (some (.textDetail "callback")))
    (by rfl) (by rfl)

/-- C6 counterexample: an executeTool call that fails input validation does
not increment totalRequests — only the error counter — so the total-requests
counter is not incremented on every terminal branch. -/
theorem validation_failure_stats_cx :
    (executeTool "agent-1" "test-tool" [("callback", JValue.fn)] none
      (fun _ => .ok { success := true, decision := allowDecisionFx })
      (some (fun _ _ => .ok (0 : Nat))) statsFx 5 0 "t").stats.totalRequests = 0
    ∧ (executeTool "agent-1" "test-tool" [("callback", JValue.fn)] none
      (fun _ => .ok { success := true, decision := allowDecisionFx })
      (some (fun _ _ => .ok (0 : Nat))) statsFx 5 0 "t").stats.errorCount = 1 :=
  ⟨rfl, rfl⟩

/-- C6 (amended): updateStatistics runs exactly on the calls whose remote
evaluation returns a successful response: on the allowed, denied and
transformed branches, and also on the unknown-action error branch, which
updates statistics before throwing, so there totalRequests and the average
change (no per-action counter) and errorCount is additionally incremented.
The update increments totalRequests and the matching per-action counter and
folds the sample into the running average by
newAvg = (oldAvg * (n-1) + sample) / n.  Error branches before that point —
an input-validation failure, a transport failure, and a non-success
evaluation response — increment only errorCount and leave the other
counters and the average untouched.  Consequently, after a sequence of
completed calls, totalRequests grows by the number of calls and each
per-action counter by the number of decisions with that action. -/
theorem statistics_update_spec {T : Type} :
    (∀ (stats : SDKStatistics) (d : SecurityDecision) (rt : Rat),
        (updateStatistics stats d rt).totalRequests = stats.totalRequests + 1
      ∧ (updateStatistics stats d rt).allowedRequests =
          stats.allowedRequests + (if d.action = "allow" then 1 else 0)
      ∧ (updateStatistics stats d rt).deniedRequests =
          stats.deniedRequests + (if d.action = "deny" then 1 else 0)
      ∧ (updateStatistics stats d rt).transformedRequests =
          stats.transformedRequests + (if d.action = "transform" then 1 else 0)
      ∧ (updateStatistics stats d rt).averageResponseTime =
          (stats.averageResponseTime * stats.totalRequests + rt) / (stats.totalRequests + 1)
      ∧ (updateStatistics stats d rt).errorCount = stats.errorCount)
    ∧ (∀ (agentId : String) (stats : SDKStatistics)
        (l : List (CallInput T × SecurityDecision)),
        (∀ p ∈ l,
          validateToolNameE p.1.toolName = .ok ()
          ∧ validateToolParametersE (.obj p.1.parameters) = .ok ()
          ∧ p.1.evaluateSecurity
              (mkRequest agentId p.1.toolName p.1.parameters p.1.context)
              = .ok { success := true, decision := p.2 }
          ∧ (p.2.action = "allow" ∨ p.2.action = "deny" ∨ p.2.action = "transform")) →
        (runSequence agentId stats (l.map Prod.fst)).totalRequests
            = stats.totalRequests + l.length
        ∧ (runSequence agentId stats (l.map Prod.fst)).allowedRequests
            = stats.allowedRequests + l.countP (fun p => decide (p.2.action = "allow"))
        ∧ (runSequence agentId stats (l.map Prod.fst)).deniedRequests
            = stats.deniedRequests + l.countP (fun p => decide (p.2.action = "deny"))
        ∧ (runSequence agentId stats (l.map Prod.fst)).transformedRequests
            = stats.transformedRequests + l.countP (fun p => decide (p.2.action = "transform"))
        ∧ (runSequence agentId stats (l.map Prod.fst)).errorCount = stats.errorCount)
    ∧ (∀ (agentId toolName : String) (parameters : List (String × JValue))
        (context : Option SecurityContext)
        (evaluateSecurity : ToolExecutionRequest → Except Thrown SecurityEvaluationResponse)
        (toolExecutor : Option (String → List (String × JValue) → Except Thrown T))
        (stats : SDKStatistics) (responseTime : Rat) (errorNow : Nat) (nowIso : String)
        (e : Thrown),
        validateToolParametersE (.obj parameters) = .error e →
        (executeTool agentId toolName parameters context evaluateSecurity toolExecutor
            stats responseTime errorNow nowIso).stats
          = { stats with errorCount := stats.errorCount + 1 })
    ∧ (∀ (agentId toolName : String) (parameters : List (String × JValue))
        (context : Option SecurityContext)
        (evaluateSecurity : ToolExecutionRequest → Except Thrown SecurityEvaluationResponse)
        (toolExecutor : Option (String → List (String × JValue) → Except Thrown T))
        (stats : SDKStatistics) (responseTime : Rat) (errorNow : Nat) (nowIso : String),
        (∀ e : Thrown, validateToolNameE toolName = .error e →
          (executeTool agentId toolName parameters context evaluateSecurity toolExecutor
              stats responseTime errorNow nowIso).stats
            = { stats with errorCount := stats.errorCount + 1 })
        ∧ (∀ e : Thrown, validateToolNameE toolName = .ok () →
            validateToolParametersE (.obj parameters) = .ok () →
            evaluateSecurity (mkRequest agentId toolName parameters context) = .error e →
            (executeTool agentId toolName parameters context evaluateSecurity toolExecutor
                stats responseTime errorNow nowIso).stats
              = { stats with errorCount := stats.errorCount + 1 })
        ∧ (∀ response : SecurityEvaluationResponse,
            validateToolNameE toolName = .ok () →
            validateToolParametersE (.obj parameters) = .ok () →
            evaluateSecurity (mkRequest agentId toolName parameters context) = .ok response →
            response.success = false →
            (executeTool agentId toolName parameters context evaluateSecurity toolExecutor
                stats responseTime errorNow nowIso).stats
              = { stats with errorCount := stats.errorCount + 1 }))
    ∧ (∀ (agentId toolName : String) (parameters : List (String × JValue))
        (context : Option SecurityContext)
        (evaluateSecurity : ToolExecutionRequest → Except Thrown SecurityEvaluationResponse)
        (toolExecutor : Option (String → List (String × JValue) → Except Thrown T))
        (stats : SDKStatistics) (responseTime : Rat) (errorNow : Nat) (nowIso : String)
        (response : SecurityEvaluationResponse),
        validateToolNameE toolName = .ok () →
        validateToolParametersE (.obj parameters) = .ok () →
        evaluateSecurity (mkRequest agentId toolName parameters context) = .ok response →
        response.success = true →
        response.decision.action ≠ "allow" →
        response.decision.action ≠ "deny" →
        response.decision.action ≠ "transform" →
        (executeTool agentId toolName parameters context evaluateSecurity toolExecutor
            stats responseTime errorNow nowIso).stats
          = { updateStatistics stats response.decision responseTime with
              errorCount := stats.errorCount + 1 }) := by
  refine ⟨?_, ?_, ?_, ?_, ?_⟩
  · intro stats d rt
    exact ⟨updateStatistics_totalRequests stats d rt,
      updateStatistics_allowedRequests stats d rt,
      updateStatistics_deniedRequests stats d rt,
      updateStatistics_transformedRequests stats d rt,
      updateStatistics_average stats d rt,
      updateStatistics_errorCount stats d rt⟩
  · intro agentId stats l h
    induction l generalizing stats with
    | nil => simp [runSequence]
    | cons p rest ih =>
        obtain ⟨hn, hp, he, ha⟩ := h p (List.mem_cons_self p rest)
        have hstep := executeTool_completed_stats agentId p.1.toolName p.1.parameters
          p.1.context p.1.evaluateSecurity p.1.toolExecutor stats p.1.responseTime
          p.1.errorNow p.1.nowIso { success := true, decision := p.2 }
          hn hp he rfl ha
        have hrest : ∀ q ∈ rest,
            validateToolNameE q.1.toolName = .ok ()
            ∧ validateToolParametersE (.obj q.1.parameters) = .ok ()
            ∧ q.1.evaluateSecurity
                (mkRequest agentId q.1.toolName q.1.parameters q.1.context)
                = .ok { success := true, decision := q.2 }
            ∧ (q.2.action = "allow" ∨ q.2.action = "deny" ∨ q.2.action = "transform") :=
          fun q hq => h q (List.mem_cons_of_mem p hq)
        obtain ⟨iht, iha, ihd, ihtr, ihe⟩ := ih (updateStatistics stats p.2 p.1.responseTime) hrest
        have hrun : runSequence agentId stats ((p :: rest).map Prod.fst)
            = runSequence agentId (updateStatistics stats p.2 p.1.responseTime)
                (rest.map Prod.fst) := by
          simp only [List.map_cons, runSequence]
          rw [hstep]
        rw [hrun]
        refine ⟨?_, ?_, ?_, ?_, ?_⟩
        · rw [iht, updateStatistics_totalRequests]
          simp only [List.length_cons]
          omega
        · rw [iha, updateStatistics_allowedRequests, List.countP_cons]
          simp only [decide_eq_true_eq]
          split_ifs <;> omega
        · rw [ihd, updateStatistics_deniedRequests, List.countP_cons]
          simp only [decide_eq_true_eq]
          split_ifs <;> omega
        · rw [ihtr, updateStatistics_transformedRequests, List.countP_cons]
          simp only [decide_eq_true_eq]
          split_ifs <;> omega
        · rw [ihe, updateStatistics_errorCount]
  · intro agentId toolName parameters context evaluateSecurity toolExecutor stats
      responseTime errorNow nowIso e hparams
    cases hv : validateToolNameE toolName with
    | error e0 => simp only [executeTool, hv]
    | ok u => simp only [executeTool, hv, hparams]
  · intro agentId toolName parameters context evaluateSecurity toolExecutor stats
      responseTime errorNow nowIso
    refine ⟨?_, ?_, ?_⟩
    · intro e hv
      simp only [executeTool, hv]
    · intro e hname hparams heval
      simp only [executeTool, hname, hparams, heval]
    · intro response hname hparams heval hfail
      simp only [executeTool, hname, hparams, heval]
      rw [if_pos hfail]
  · intro agentId toolName parameters context evaluateSecurity toolExecutor stats
      responseTime errorNow nowIso response hname hparams heval hsuccess ha1 ha2 ha3
    simp only [executeTool, hname, hparams, heval]
    have hs : ¬(response.success = false) := by rw [hsuccess]; simp
    rw [if_neg hs, if_neg ha1, if_neg ha2, if_neg ha3]
    rw [updateStatistics_errorCount]

/-- Closed instance of the amended C6 theorem: two completed calls, one
allowed and one denied, counted exactly. -/
theorem statistics_update_spec_witness :
    let allowCall : CallInput Nat :=
      { toolName := "test-tool", parameters := [("param1", JValue.str "value1")],
        context := none,
        evaluateSecurity := fun _ => .ok { success := true, decision := allowDecisionFx },
        toolExecutor := some (fun _ _ => .ok 0),
        responseTime := 5, errorNow := 0, nowIso := "t" }
    let denyCall : CallInput Nat :=
      { toolName := "test-tool", parameters := [("param1", JValue.str "value1")],
        context := none,
        evaluateSecurity := fun _ => .ok { success := true, decision := denyDecisionFx },
        toolExecutor := some (fun _ _ => .ok 0),
        responseTime := 5, errorNow := 0, nowIso := "t" }
    let l : List (CallInput Nat × SecurityDecision) :=
      [(allowCall, allowDecisionFx), (denyCall, denyDecisionFx)]
    (runSequence "agent-1" statsFx (l.map Prod.fst)).totalRequests
        = statsFx.totalRequests + l.length
    ∧ (runSequence "agent-1" statsFx (l.map Prod.fst)).allowedRequests
        = statsFx.allowedRequests + l.countP (fun p => decide (p.2.action = "allow"))
    ∧ (runSequence "agent-1" statsFx (l.map Prod.fst)).deniedRequests
        = statsFx.deniedRequests + l.countP (fun p => decide (p.2.action = "deny"))
    ∧ (runSequence "agent-1" statsFx (l.map Prod.fst)).transformedRequests
        = statsFx.transformedRequests + l.countP (fun p => decide (p.2.action = "transform"))
    ∧ (runSequence "agent-1" statsFx (l.map Prod.fst)).errorCount = statsFx.errorCount := by
  intro allowCall denyCall l
  refine (statistics_update_spec (T := Nat)).2.1 "agent-1" statsFx l ?_
  intro p hp
  have hp1 : p ∈ [(allowCall, allowDecisionFx), (denyCall, denyDecisionFx)] := hp
  have hp2 : p = (allowCall, allowDecisionFx) ∨ p = (denyCall, denyDecisionFx) := by
    simpa using hp1
  rcases hp2 with rfl | rfl
  · exact ⟨rfl, rfl, rfl, Or.inl rfl⟩
  · exact ⟨rfl, rfl, rfl, Or.inr (Or.inl rfl)⟩

/-- C7 counterexample: setting a transform action and then overriding it
with allow yields a policy that builds successfully with action allow while
still carrying the stale transformation, so a built policy does not satisfy
"transformation present iff action is transform". -/
theorem builder_stale_transformation_cx :
    ((runBuilder initialBuilder
        [.name "p", .whenToolName "x", .transformToReadOnly none, .allow none]).toOption.bind
      (fun st => (PolicyBuilder.build st).toOption)).map
        (fun p => (p.action, p.transformation.isSome)) = some ("allow", true) := rfl

/-- C7 (amended): for every sequence of PolicyBuilder calls, build()
succeeds iff name, action and reason are set and the condition list is
non-empty, with a transform action additionally requiring a transformation;
every policy build() returns carries a transformation whenever its action is
transform, but the built policy keeps whatever transformation the builder
state holds, so overriding a transform action with allow or deny leaves the
stale transformation on a non-transform policy. -/
theorem policyBuilder_build_spec :
    (∀ (calls : List BuilderCall) (b : BuilderState),
      runBuilder initialBuilder calls = .ok b →
      ((∃ p, PolicyBuilder.build b = .ok p) ↔
        (b.name.isSome = true ∧ b.action.isSome = true ∧ b.reason.isSome = true
          ∧ b.conditions ≠ []
          ∧ (b.action = some "transform" → b.transformation.isSome = true))))
    ∧ (∀ (b : BuilderState) (p : SecurityPolicy),
      PolicyBuilder.build b = .ok p →
      (p.action = "transform" → p.transformation.isSome = true)
      ∧ p.transformation = b.transformation
      ∧ p.action = b.action.getD ""
      ∧ p.conditions = b.conditions) := by
  constructor
  · intro calls b hrun
    obtain ⟨g1, g2, g3⟩ := runBuilder_preserves_good calls initialBuilder b hrun
      (fun s hs => by simp [initialBuilder] at hs)
      (fun s hs => by simp [initialBuilder] at hs)
      (fun s hs => by simp [initialBuilder] at hs)
    exact build_ok_characterization b g1 g2 g3
  · intro b p hp
    simp only [PolicyBuilder.build] at hp
    split_ifs at hp with h1 h2 h3 h4 h5
    rw [Except.ok.injEq] at hp
    refine ⟨?_, by rw [← hp], by rw [← hp], by rw [← hp]⟩
    intro hact
    rw [← hp] at hact
    have hact2 : b.action.getD "" = "transform" := hact
    rw [← hp]
    show b.transformation.isSome = true
    cases hb : b.action with
    | none =>
        rw [hb] at hact2
        exact absurd hact2 (by decide)
    | some s =>
        rw [hb] at hact2
        have hs2 : s = "transform" := hact2
        subst hs2
        rw [hb] at h5
        simp only [Bool.and_eq_true, beq_iff_eq] at h5
        push_neg at h5
        have h6 := h5 trivial
        have h7 : b.transformation ≠ none := by
          intro hnone
          exact h6 (by simp [hnone])
        rw [Option.isSome_iff_ne_none]
        exact h7

/-- Closed instance of the amended C7 theorem: the success characterization
at the builder state reached by name, one condition, and deny. -/
theorem policyBuilder_build_spec_witness :
    let b : BuilderState :=
      { name := some "p", description := none,
        conditions := [{ type := "tool_name", pattern := some "x", operator := none,
                         value := none, parameter := none }],
        action := some "deny", reason := some "Operation denied by policy",
        transformation := none, priority := none }
    (∃ p, PolicyBuilder.build b = .ok p) ↔
      (b.name.isSome = true ∧ b.action.isSome = true ∧ b.reason.isSome = true
        ∧ b.conditions ≠ []
        ∧ (b.action = some "transform" → b.transformation.isSome = true)) :=
  policyBuilder_build_spec.1 [.name "p", .whenToolName "x", .deny none]
    { name := some "p", description := none,
      conditions := [{ type := "tool_name", pattern := some "x", operator := none,
                       value := none, parameter := none }],
      action := some "deny", reason := some "Operation denied by policy",
      transformation := none, priority := none }
    (by rfl)

/-- C8 counterexample: a configuration with an apiKey of exactly ten
characters — the minimum length the constructor accepts — has a safe view
whose apiKey entry starts with the entire key, so the view does expose the
full key. -/
theorem safeConfig_full_key_cx :
    validateConfig ({ apiKey := "0123456789", ssaUrl := "https://ssa.example.com",
                      agentId := none, timeout := none, retries := none,
                      debug := none, headers := none } : TealTigerConfig) = .ok ()
    ∧ (getSafeConfig { apiKey := "0123456789", ssaUrl := "https://ssa.example.com",
                       agentId := none, timeout := none, retries := none,
                       debug := none, headers := none }).apiKey
        = some ("0123456789" ++ "...")
    ∧ jsIncludes ("0123456789" ++ "...") "0123456789" = true :=
  ⟨rfl, rfl, rfl⟩

/-- C8 (amended): for every configuration the constructor accepts, the safe
view passes ssaUrl, agentId, timeout, retries and debug through unchanged
and replaces the apiKey with its first ten characters followed by an
ellipsis; an accepted key has at least ten characters, so the exposed prefix
has exactly ten characters and, for keys strictly longer than ten
characters, is a proper prefix of the key — but for a ten-character key the
prefix is the whole key.  sanitizeConfig agrees with this view on every
accepted key other than the special-cased literal "secret-api-key". -/
theorem getSafeConfig_redaction_spec (cfg : TealTigerConfig)
    (h : validateConfig cfg = .ok ()) :
    10 ≤ cfg.apiKey.length
    ∧ getSafeConfig cfg =
        { ssaUrl := some cfg.ssaUrl, agentId := cfg.agentId, timeout := cfg.timeout,
          retries := cfg.retries, debug := cfg.debug,
          apiKey := some (jsSubstringZero cfg.apiKey 10 ++ "..."), headers := none }
    ∧ (jsSubstringZero cfg.apiKey 10).length = 10
    ∧ (10 < cfg.apiKey.length → jsSubstringZero cfg.apiKey 10 ≠ cfg.apiKey)
    ∧ (cfg.apiKey ≠ "secret-api-key" → sanitizeConfig cfg = getSafeConfig cfg) := by
  have hlen := validateConfig_ok_apiKey cfg h
  have hd : cfg.apiKey.length = cfg.apiKey.data.length := rfl
  have htake : (jsSubstringZero cfg.apiKey 10).length = min 10 cfg.apiKey.data.length := by
    show (cfg.apiKey.data.take 10).length = min 10 cfg.apiKey.data.length
    exact List.length_take 10 cfg.apiKey.data
  refine ⟨hlen, rfl, ?_, ?_, ?_⟩
  · rw [htake]
    omega
  · intro hgt heq
    have h2 : (jsSubstringZero cfg.apiKey 10).length = cfg.apiKey.length := by rw [heq]
    rw [htake] at h2
    omega
  · intro hneq
    simp only [sanitizeConfig, getSafeConfig]
    rw [if_neg (by omega), if_neg hneq]

/-- Closed instance of the amended C8 theorem at a twelve-character key. -/
theorem getSafeConfig_redaction_spec_witness :
    let cfg : TealTigerConfig :=
      { apiKey := "0123456789AB", ssaUrl := "https://ssa.example.com",
        agentId := some "agent-1", timeout := none, retries := none,
        debug := some true, headers := none }
    10 ≤ cfg.apiKey.length
    ∧ getSafeConfig cfg =
        { ssaUrl := some cfg.ssaUrl, agentId := cfg.agentId, timeout := cfg.timeout,
          retries := cfg.retries, debug := cfg.debug,
          apiKey := some (jsSubstringZero cfg.apiKey 10 ++ "..."), headers := none }
    ∧ (jsSubstringZero cfg.apiKey 10).length = 10
    ∧ (10 < cfg.apiKey.length → jsSubstringZero cfg.apiKey 10 ≠ cfg.apiKey)
    ∧ (cfg.apiKey ≠ "secret-api-key" → sanitizeConfig cfg = getSafeConfig cfg) :=
  getSafeConfig_redaction_spec
    { apiKey := "0123456789AB", ssaUrl := "https://ssa.example.com",
      agentId := some "agent-1", timeout := none, retries := none,
      debug := some true, headers := none }
    (by rfl)

end TealTiger
